import Mathlib

/-!
Shallow embedding of the ANVIL membrane-topology algorithm from
src/mol-model-props/computed/topology/ANVIL.ts.

Conventions of the embedding:
* JavaScript numbers are idealised as real numbers; loops whose bound is a
  real value are modelled by their exact iteration count (Nat.ceil of the
  bound divided by the step), which matches the source loop whenever the
  step is positive.
* JavaScript array accesses are modelled by List.get?; an access that would
  yield undefined followed by a property read (a TypeError at runtime) is
  modelled by Except.error JsErr.typeError.
* The in-place mutation of the initialStats object performed by qValue is
  modelled by explicit state passing: qValueS returns the updated statistics
  record together with the score, and findMembrane threads that state.
* External collaborators that are not part of the four source files
  (CentroidHelper, the structure data model, the surface-area provider) are
  modelled from the spec where indicated.
-/

open scoped Classical

noncomputable section

namespace ANVIL

/-- 3D vector over the reals, mirroring mol-math Vec3. -/
structure Vec3 where
  x : ℝ
  y : ℝ
  z : ℝ

namespace Vec3

def sub (a b : Vec3) : Vec3 := ⟨a.x - b.x, a.y - b.y, a.z - b.z⟩

def scale (a : Vec3) (s : ℝ) : Vec3 := ⟨a.x * s, a.y * s, a.z * s⟩

/-- Vec3.scaleAndAdd(out, a, b, s) = a + b * s. -/
def scaleAndAdd (a b : Vec3) (s : ℝ) : Vec3 := ⟨a.x + b.x * s, a.y + b.y * s, a.z + b.z * s⟩

def dot (a b : Vec3) : ℝ := a.x * b.x + a.y * b.y + a.z * b.z

def magnitude (a : Vec3) : ℝ := Real.sqrt (dot a a)

def squaredDistance (a b : Vec3) : ℝ := (a.x - b.x) ^ 2 + (a.y - b.y) ^ 2 + (a.z - b.z) ^ 2

def distance (a b : Vec3) : ℝ := Real.sqrt (squaredDistance a b)

end Vec3

/-- The ANVILParams / ANVILProps record (PD.Numeric defaults in the source). -/
structure ANVILProps where
  numberOfSpherePoints : ℕ
  stepSize : ℝ
  minThickness : ℝ
  maxThickness : ℝ
  afilter : ℝ
  membranePointDensity : ℝ

/-- Default parameter values from ANVILParams. -/
def defaultProps : ANVILProps :=
  { numberOfSpherePoints := 350
    stepSize := 1
    minThickness := 20
    maxThickness := 40
    afilter := 40
    membranePointDensity := 2 }

/-- The HphobHphil statistics record. -/
structure HphobHphil where
  hphob : ℝ
  hphil : ℝ
  total : ℝ

namespace HphobHphil

/-- HphobHphil.of(hphob, hphil) with the total argument omitted. -/
def of2 (hphob hphil : ℝ) : HphobHphil := ⟨hphob, hphil, hphob + hphil⟩

/-- HphobHphil.of(hphob, hphil, total): the source uses the JavaScript
truthiness test on total, so a zero total falls back to hphob + hphil. -/
def of3 (hphob hphil total : ℝ) : HphobHphil :=
  ⟨hphob, hphil, if total = 0 then hphob + hphil else total⟩

end HphobHphil

/-- One qualifying residue sample: the CA position, the exposed flag computed
from the surface-area value, and the residue name, as gathered by the first
loop of calculate. -/
structure Residue where
  pos : Vec3
  exposed : Bool
  compId : String

/-- The ANVIL-specific hydrophobic amino-acid set. -/
def HYDROPHOBIC_AMINO_ACIDS : List String :=
  ["ALA", "CYS", "GLY", "HIS", "ILE", "LEU", "MET", "PHE", "SER", "THR", "VAL"]

def isHydrophobic (label_comp_id : String) : Bool :=
  HYDROPHOBIC_AMINO_ACIDS.contains label_comp_id

/-- A membership filter as passed to HphobHphil.filtered (none = no filter). -/
def filterRejects : Option (Vec3 → Bool) → Vec3 → Bool
  | none, _ => false
  | some f, p => !(f p)

/-- The counting loop of HphobHphil.filtered: buried residues are skipped,
then the optional membrane-plane filter is applied, then the residue is
classified by its residue name. -/
def filteredCounts (residues : List Residue) (filter : Option (Vec3 → Bool)) : ℝ × ℝ :=
  residues.foldl
    (fun acc r =>
      if !r.exposed then acc
      else if filterRejects filter r.pos then acc
      else if isHydrophobic r.compId then (acc.1 + 1, acc.2) else (acc.1, acc.2 + 1))
    (0, 0)

/-- HphobHphil.filtered. -/
def filtered (residues : List Residue) (filter : Option (Vec3 → Bool)) : HphobHphil :=
  HphobHphil.of2 (filteredCounts residues filter).1 (filteredCounts residues filter).2

/-- The Membrane record of the source (optional fields are only set by
Membrane.scored). -/
structure Membrane where
  planePoint1 : Vec3
  planePoint2 : Vec3
  stats : HphobHphil
  normalVector : Option Vec3
  spherePoint : Option Vec3
  center : Option Vec3
  qmax : Option ℝ
  membraneAtoms : Option (List Vec3)

namespace Membrane

/-- Membrane.initial(c1, c2, stats). -/
def initial (c1 c2 : Vec3) (stats : HphobHphil) : Membrane :=
  ⟨c1, c2, stats, none, none, none, none, none⟩

/-- Membrane.scored(spherePoint, c1, c2, stats, qmax, center): the normal is
computed as center - spherePoint from the formal parameters. -/
def scored (spherePoint c1 c2 : Vec3) (stats : HphobHphil) (qmax : ℝ) (center : Vec3) : Membrane :=
  ⟨c1, c2, stats, some (Vec3.sub center spherePoint), some spherePoint, some center,
    some qmax, some []⟩

end Membrane

/-- qValue with the in-place mutation of initialStats made explicit: the
returned record is the (possibly adjusted) initialStats object as it is left
after the call. -/
def qValueS (currentStats initialStats : HphobHphil) : ℝ × HphobHphil :=
  let i1 := if initialStats.hphob < 1 then { initialStats with hphob := 0.1 } else initialStats
  let i2 := if i1.hphil < 1 then { i1 with hphil := i1.hphil + 1 } else i1
  let tot := i2.hphob + i2.hphil
  let part_tot := currentStats.hphob + currentStats.hphil
  ((currentStats.hphob * (i2.hphil - currentStats.hphil) -
      currentStats.hphil * (i2.hphob - currentStats.hphob)) /
    (part_tot * i2.hphob * i2.hphil * (tot - part_tot)), i2)

/-- isInMembranePlane. -/
def isInMembranePlane (testPoint normalVector planePoint1 planePoint2 : Vec3) : Bool :=
  let d1 := -(Vec3.dot normalVector planePoint1)
  let d2 := -(Vec3.dot normalVector planePoint2)
  let d := -(Vec3.dot normalVector testPoint)
  if min d1 d2 < d ∧ d < max d1 d2 then true else false

/-- Runtime error kinds of the JavaScript program: typeError models a
property access on undefined, nonTermination models a diverging while loop. -/
inductive JsErr where
  | typeError : JsErr
  | nonTermination : JsErr
deriving DecidableEq

/-- Left fold in the Except monad, written out so that equations unfold. -/
def exceptFold {σ α : Type} (f : σ → α → Except JsErr σ) : σ → List α → Except JsErr σ
  | s, [] => .ok s
  | s, a :: l =>
    match f s a with
    | .error e => .error e
    | .ok s' => exceptFold f s' l

/-- JavaScript array access at a real-valued index: defined exactly when the
index is a nonnegative integer within bounds, undefined otherwise. -/
def getAtReal (l : List Membrane) (x : ℝ) : Option Membrane :=
  if (⌊x⌋₊ : ℝ) = x then l.get? ⌊x⌋₊ else none

/-- Number of iterations of "for (i = 0; i < diamNorm - stepSize; i += stepSize)"
(exact for a positive step). -/
def sliceCount (diamNorm step : ℝ) : ℕ := ⌈(diamNorm - step) / step⌉₊

/-- The slice built at offset n * stepSize along the diameter: its two plane
points and its filtered statistics. -/
def sliceAt (spherePoint diam : Vec3) (diamNorm step : ℝ) (residues : List Residue)
    (n : ℕ) : Membrane :=
  let c1 := Vec3.scaleAndAdd spherePoint diam ((n * step) / diamNorm)
  let c2 := Vec3.scaleAndAdd spherePoint diam ((n * step + step) / diamNorm)
  Membrane.initial c1 c2
    (filtered residues (some fun p => isInMembranePlane p diam c1 c2))

/-- The window-accumulation loop "for (j = 0; j < jmax; j++)": boundary checks
j == 0 and j === jmax - 1 select the half weight for hphob and hphil, while
total is always accumulated at full weight. -/
def windowSums (qvartemp : List Membrane) (i : ℕ) (jmaxR : ℝ) : Except JsErr (ℝ × ℝ × ℝ) :=
  exceptFold
    (fun acc j =>
      match qvartemp.get? (i + j) with
      | none => .error .typeError
      | some ij =>
        if j = 0 ∨ (j : ℝ) = jmaxR - 1 then
          .ok (acc.1 + 0.5 * ij.stats.hphob, acc.2.1 + 0.5 * ij.stats.hphil,
            acc.2.2 + ij.stats.total)
        else
          .ok (acc.1 + ij.stats.hphob, acc.2.1 + ij.stats.hphil, acc.2.2 + ij.stats.total))
    (0, 0, 0) (List.range ⌈jmaxR⌉₊)

/-- Search state of findMembrane: best membrane so far, qmax, and the shared
initialStats object (mutable in the source). -/
abbrev SearchState := Option Membrane × ℝ × HphobHphil

/-- One iteration of the window loop "for (i = 0; i < imax; i++)". -/
def windowStep (qvartemp : List Membrane) (jmaxR : ℝ) (centroid spherePoint : Vec3)
    (st : SearchState) (i : ℕ) : Except JsErr SearchState :=
  match qvartemp.get? i with
  | none => .error .typeError
  | some mi =>
    match getAtReal qvartemp ((i : ℝ) + jmaxR) with
    | none => .error .typeError
    | some mj =>
      let c1 := mi.planePoint1
      let c2 := mj.planePoint2
      match windowSums qvartemp i jmaxR with
      | .error e => .error e
      | .ok (hphob, hphil, total) =>
        if hphob ≠ 0 then
          let q := qValueS (HphobHphil.of3 hphob hphil total) st.2.2
          if st.2.1 < q.1 then
            .ok (some (Membrane.scored centroid c1 c2 (HphobHphil.of3 hphob hphil total)
              q.1 spherePoint), q.1, q.2)
          else .ok (st.1, st.2.1, q.2)
        else .ok st

/-- Number of iterations of the width while loop: the first check is
width = 0 < maxThickness, the check before iteration k (k >= 1) is
minThickness + k * stepSize < maxThickness (exact for a positive step,
for which the check value is monotone). -/
def widthIterCount (minT maxT step : ℝ) : ℕ :=
  if 0 < maxT then (⌈(maxT - minT) / step⌉₊ - 1) + 1 else 0

/-- One iteration of the width loop, at jmax = minThickness / stepSize - 1 + k. -/
def widthStep (qvartemp : List Membrane) (p : ANVILProps) (centroid spherePoint : Vec3)
    (st : SearchState) (k : ℕ) : Except JsErr SearchState :=
  let jmaxR := p.minThickness / p.stepSize - 1 + k
  let imaxR := (qvartemp.length : ℝ) - 1 - jmaxR
  exceptFold (windowStep qvartemp jmaxR centroid spherePoint) st (List.range ⌈imaxR⌉₊)

/-- The body of findMembrane for a single axis candidate. -/
def axisStep (centroid : Vec3) (p : ANVILProps) (residues : List Residue)
    (st : SearchState) (spherePoint : Vec3) : Except JsErr SearchState :=
  let diam := Vec3.scale (Vec3.sub centroid spherePoint) 2
  let diamNorm := Vec3.magnitude diam
  let qvartemp := (List.range (sliceCount diamNorm p.stepSize)).map
    (sliceAt spherePoint diam diamNorm p.stepSize residues)
  exceptFold (widthStep qvartemp p centroid spherePoint) st
    (List.range (widthIterCount p.minThickness p.maxThickness p.stepSize))

/-- findMembrane: qmax starts at 0 and the best membrane starts undefined;
the final state also carries the initialStats object as findMembrane leaves it. -/
def findMembrane (spherePoints : List Vec3) (centroid : Vec3) (p : ANVILProps)
    (initialStats : HphobHphil) (residues : List Residue) : Except JsErr SearchState :=
  exceptFold (axisStep centroid p residues) (none, 0, initialStats) spherePoints

/-- JavaScript remainder x % m for the nonnegative arguments the sampler
produces: x - m * floor (x / m). -/
def jsFmod (x m : ℝ) : ℝ := x - m * ⌊x / m⌋

/-- h of the spiral parametrisation at index k (k runs from 1 to n). -/
def sphereH (n k : ℕ) : ℝ := -1 + 2 * ((k : ℝ) - 1) / ((n : ℝ) - 1)

/-- The recursively accumulated phi of generateSpherePoints: phi is 0 at the
two poles k = 1 and k = n, otherwise the previous phi advanced by the spiral
increment, reduced modulo 2 pi. -/
def spherePhi (n : ℕ) : ℕ → ℝ
  | 0 => 0
  | 1 => 0
  | k + 2 =>
    if k + 2 = n then 0
    else jsFmod (spherePhi n (k + 1) +
      3.6 / Real.sqrt ((n : ℝ) * (1 - sphereH n (k + 2) ^ 2))) (2 * Real.pi)

/-- The point stored at position k - 1 by generateSpherePoints. -/
def spherePointAt (n : ℕ) (centroid : Vec3) (extent : ℝ) (k : ℕ) : Vec3 :=
  let theta := Real.arccos (sphereH n k)
  let phi := spherePhi n k
  ⟨extent * Real.sin phi * Real.sin theta + centroid.x,
    extent * Real.cos theta + centroid.y,
    extent * Real.cos phi * Real.sin theta + centroid.z⟩

/-- generateSpherePoints. -/
def generateSpherePoints (numberOfSpherePoints : ℕ) (centroid : Vec3) (extent : ℝ) :
    List Vec3 :=
  (List.range numberOfSpherePoints).map (fun i => spherePointAt numberOfSpherePoints centroid extent (i + 1))

/-- The candidate subset computed by one iteration of the findProximateAxes
while loop at threshold offset j. -/
def proximateFilterAt (numberOfSpherePoints : ℕ) (centroid : Vec3) (extent : ℝ)
    (j : ℝ) : List Vec3 :=
  let d := 2 * extent / (numberOfSpherePoints : ℝ) + j
  (generateSpherePoints 30000 centroid extent).filter
    (fun p => decide (Vec3.squaredDistance p centroid < d * d))

/-- The while loop of findProximateAxes, with explicit fuel; none models a
loop that has not produced enough points within the given fuel. -/
def findProximateAxesAux (numberOfSpherePoints : ℕ) (centroid : Vec3) (extent : ℝ) :
    ℕ → ℝ → List Vec3 → Option (List Vec3)
  | 0, _, acc => if numberOfSpherePoints ≤ acc.length then some acc else none
  | fuel + 1, j, acc =>
    if numberOfSpherePoints ≤ acc.length then some acc
    else findProximateAxesAux numberOfSpherePoints centroid extent fuel (j + 0.2)
      (proximateFilterAt numberOfSpherePoints centroid extent j)

/-- findProximateAxes: the membrane argument is accepted but never used by
the source. The fuel bound is a modelling device for the JavaScript while
loop; running out of fuel is reported as nonTermination. -/
def findProximateAxesE (_membrane : Option Membrane) (numberOfSpherePoints : ℕ)
    (centroid : Vec3) (extent : ℝ) : Except JsErr (List Vec3) :=
  match findProximateAxesAux numberOfSpherePoints centroid extent
    (⌈15 * |extent|⌉₊ + 1) 4 [] with
  | some pts => .ok pts
  | none => .error .nonTermination

/-- Reading the qmax property: a TypeError when the membrane itself is
undefined, the (possibly undefined) qmax field otherwise. -/
def qmaxDeref : Option Membrane → Except JsErr (Option ℝ)
  | none => .error .typeError
  | some m => .ok m.qmax

/-- The JavaScript comparison a > b, false when either side is undefined. -/
def jsGT : Option ℝ → Option ℝ → Bool
  | some a, some b => decide (b < a)
  | some _, none => false
  | none, _ => false

/-- The membrane-selection expression of calculate:
initialMembrane.qmax! > alternativeMembrane.qmax! ? initialMembrane : alternativeMembrane. -/
def selectMembrane (initialMembrane alternativeMembrane : Option Membrane) :
    Except JsErr (Option Membrane) :=
  match qmaxDeref initialMembrane with
  | .error e => .error e
  | .ok qi =>
    match qmaxDeref alternativeMembrane with
    | .error e => .error e
    | .ok qa => .ok (if jsGT qi qa then initialMembrane else alternativeMembrane)

/-- The grid offsets -1000, -1000 + density, ... below 1000 walked by
createMembraneLayer (exact for a positive density). -/
def gridSteps (density : ℝ) : List ℝ :=
  (List.range ⌈2000 / density⌉₊).map (fun k => -1000 + k * density)

/-- createMembraneLayer. -/
def createMembraneLayer (point normalVector : Vec3) (density radius : ℝ) : List Vec3 :=
  let d := -(Vec3.dot normalVector point)
  (gridSteps density).flatMap (fun i =>
    (gridSteps density).filterMap (fun j =>
      let rep : Vec3 := ⟨i, j, -(d + i * normalVector.x + j * normalVector.y) / normalVector.z⟩
      if Vec3.squaredDistance rep point < radius then some rep else none))

/-- createMembraneLayers: dereferences membrane.normalVector!; reading the
components of an undefined normal is a TypeError. -/
def createMembraneLayersE (membrane : Option Membrane) (extent : ℝ) (p : ANVILProps) :
    Except JsErr (List Vec3) :=
  match membrane with
  | none => .error .typeError
  | some m =>
    match m.normalVector with
    | none => .error .typeError
    | some normalVector =>
      .ok (createMembraneLayer m.planePoint1 normalVector p.membranePointDensity
            (extent * extent) ++
          createMembraneLayer m.planePoint2 normalVector p.membranePointDensity
            (extent * extent))

/-- The Topology output record. -/
structure Topology where
  membrane : List Vec3

/-- One atom of the input structure, carrying exactly the fields the
calculate loop reads through the external structure accessors. -/
structure Atom where
  isProtein : Bool
  atomId : String
  pos : Vec3
  asa : ℝ
  compId : String

/-- The first loop of calculate: keep protein CA atoms, record position,
exposure (surface area strictly above afilter) and residue name. -/
def extractResidues (atoms : List Atom) (afilter : ℝ) : List Residue :=
  atoms.filterMap (fun a =>
    if a.isProtein && (a.atomId == "CA") then
      some ⟨a.pos, if afilter < a.asa then true else false, a.compId⟩
    else none)

/-- Modelled from the spec: CentroidHelper (mol-math, not among the source
files) computes the arithmetic mean of the included positions; an empty
input yields the zero vector in this model. -/
def centroidOf (l : List Vec3) : Vec3 :=
  ⟨(l.map Vec3.x).sum / l.length, (l.map Vec3.y).sum / l.length, (l.map Vec3.z).sum / l.length⟩

/-- Modelled from the spec: the radiusSq accumulated by
CentroidHelper.radiusStep is the maximum squared distance from the centroid
to any qualifying position. -/
def radiusSqOf (centroid : Vec3) (l : List Vec3) : ℝ :=
  l.foldl (fun m pos => max m (Vec3.squaredDistance pos centroid)) 0

/-- calculate: extraction, centroid and extent, global statistics, the two
findMembrane passes (the second one receiving the initialStats object as the
first pass left it), selection, and materialisation. -/
def calculate (atoms : List Atom) (p : ANVILProps) : Except JsErr Topology :=
  let residues := extractResidues atoms p.afilter
  let centroid := centroidOf (residues.map Residue.pos)
  let extent := 1.2 * Real.sqrt (radiusSqOf centroid (residues.map Residue.pos))
  let initialHphobHphil := filtered residues none
  match findMembrane (generateSpherePoints p.numberOfSpherePoints centroid extent)
      centroid p initialHphobHphil residues with
  | .error e => .error e
  | .ok (initialMembrane, _, stats1) =>
    match findProximateAxesE initialMembrane p.numberOfSpherePoints centroid extent with
    | .error e => .error e
    | .ok altPoints =>
      match findMembrane altPoints centroid p stats1 residues with
      | .error e => .error e
      | .ok (alternativeMembrane, _, _) =>
        match selectMembrane initialMembrane alternativeMembrane with
        | .error e => .error e
        | .ok membrane =>
          match createMembraneLayersE membrane extent p with
          | .error e => .error e
          | .ok pts => .ok ⟨pts⟩

/-- Topology.compute with explicit parameters (the Task wrapper of the
source adds no behaviour beyond running calculate). -/
def compute (atoms : List Atom) (p : ANVILProps) : Except JsErr Topology :=
  calculate atoms p

/-! ## Specification-side definitions used for refinement comparisons. -/

/-- Follows the words of the spec Q-score formula, reading T as the total
component of the window statistics triple and G_total as the total component
of the global reference triple, with the stated floor adjustments applied to
G_hphob and G_hphil. -/
def qValueSpecT (currentStats initialStats : HphobHphil) : ℝ :=
  let gHphob := if initialStats.hphob < 1 then 0.1 else initialStats.hphob
  let gHphil := if initialStats.hphil < 1 then initialStats.hphil + 1 else initialStats.hphil
  (currentStats.hphob * (gHphil - currentStats.hphil) -
      currentStats.hphil * (gHphob - currentStats.hphob)) /
    (currentStats.total * gHphob * gHphil * (initialStats.total - currentStats.total))

/-- The Q-score formula as the code actually computes it: T is the sum of the
window's weighted hydrophobic and hydrophilic counts (the total field of the
triple is ignored), and G_total is the sum of the floor-adjusted global
hydrophobic and hydrophilic counts. -/
def qValueSpecPartTot (currentStats initialStats : HphobHphil) : ℝ :=
  let gHphob := if initialStats.hphob < 1 then 0.1 else initialStats.hphob
  let gHphil := if initialStats.hphil < 1 then initialStats.hphil + 1 else initialStats.hphil
  let t := currentStats.hphob + currentStats.hphil
  (currentStats.hphob * (gHphil - currentStats.hphil) -
      currentStats.hphil * (gHphob - currentStats.hphob)) /
    (t * gHphob * gHphil * ((gHphob + gHphil) - t))

/-- Follows the words of the claim for C4: all three per-window sums use
trapezoidal weighting, the first and last slice of the window contributing
half of their per-slice counts. -/
def trapSum (l : List ℝ) : ℝ :=
  ∑ j ∈ Finset.range l.length,
    (if j = 0 ∨ j = l.length - 1 then (1 : ℝ) / 2 else 1) * l.getD j 0

/-- Follows the words of the claim for C4: window statistics with
trapezoidal weighting applied to the hydrophobic, hydrophilic and total sums. -/
def windowStatsSpec (win : List HphobHphil) : ℝ × ℝ × ℝ :=
  (trapSum (win.map HphobHphil.hphob), trapSum (win.map HphobHphil.hphil),
    trapSum (win.map HphobHphil.total))

/-! ## Concrete inputs and records used by the claim theorems. -/

/-- Two concrete scored membranes with equal score used to exhibit the
selector tie behaviour. -/
def tieMembraneA : Membrane := Membrane.scored ⟨0, 0, 0⟩ ⟨1, 0, 0⟩ ⟨2, 0, 0⟩ ⟨1, 1, 2⟩ 1 ⟨0, 0, 1⟩

/-- Second concrete scored membrane with the same score but different plane
points. -/
def tieMembraneB : Membrane := Membrane.scored ⟨0, 0, 0⟩ ⟨3, 0, 0⟩ ⟨4, 0, 0⟩ ⟨1, 1, 2⟩ 1 ⟨0, 0, 1⟩

/-- The loop of findProximateAxes exits exactly when some iteration (the
k-th one runs at threshold offset j = 4 + 0.2 k) collects at least
numberOfSpherePoints candidate points. -/
def proximateLoopTerminates (numberOfSpherePoints : ℕ) (centroid : Vec3) (extent : ℝ) :
    Prop :=
  ∃ k : ℕ, numberOfSpherePoints ≤
    (proximateFilterAt numberOfSpherePoints centroid extent (4 + 0.2 * k)).length

/-- Default membrane used only to express list indexing totally. -/
def dfltMembrane : Membrane := Membrane.initial ⟨0, 0, 0⟩ ⟨0, 0, 0⟩ ⟨0, 0, 0⟩

/-- A small valid configuration: step 1, thickness range [2, 3]. -/
def goodParams : ANVILProps :=
  { numberOfSpherePoints := 1, stepSize := 1, minThickness := 2, maxThickness := 3,
    afilter := 40, membranePointDensity := 2 }

/-- One exposed hydrophobic residue between the two planes of the first slice. -/
def goodRes : Residue := ⟨⟨-(3 / 2), 0, 0⟩, true, "ALA"⟩

/-- The membrane recorded on the good run. -/
def goodMembrane : Membrane :=
  Membrane.scored ⟨0, 0, 0⟩ ⟨-2, 0, 0⟩ ⟨0, 0, 0⟩ ⟨1 / 2, 0, 1⟩ (2 / 3) ⟨-2, 0, 0⟩

/-- A configuration with minThickness 5 above maxThickness 2: the source
performs no configuration validation and still evaluates the first width. -/
def badParams : ANVILProps :=
  { numberOfSpherePoints := 1, stepSize := 1, minThickness := 5, maxThickness := 2,
    afilter := 40, membranePointDensity := 2 }

/-- One exposed hydrophobic residue inside the second slice of the bad run. -/
def badRes : Residue := ⟨⟨-(5 / 2), 0, 0⟩, true, "ALA"⟩

/-- The membrane recorded on the bad run: its slab width is 5, above
maxThickness + stepSize = 3. -/
def badMembrane : Membrane :=
  Membrane.scored ⟨0, 0, 0⟩ ⟨-4, 0, 0⟩ ⟨1, 0, 0⟩ ⟨1, 0, 1⟩ 1 ⟨-4, 0, 0⟩

/-- The slice list of the bad run. -/
def badQvar : List Membrane :=
  [Membrane.initial ⟨-4, 0, 0⟩ ⟨-3, 0, 0⟩ ⟨0, 0, 0⟩,
    Membrane.initial ⟨-3, 0, 0⟩ ⟨-2, 0, 0⟩ ⟨1, 0, 1⟩,
    Membrane.initial ⟨-2, 0, 0⟩ ⟨-1, 0, 0⟩ ⟨0, 0, 0⟩,
    Membrane.initial ⟨-1, 0, 0⟩ ⟨0, 0, 0⟩ ⟨0, 0, 0⟩,
    Membrane.initial ⟨0, 0, 0⟩ ⟨1, 0, 0⟩ ⟨0, 0, 0⟩,
    Membrane.initial ⟨1, 0, 0⟩ ⟨2, 0, 0⟩ ⟨0, 0, 0⟩,
    Membrane.initial ⟨2, 0, 0⟩ ⟨3, 0, 0⟩ ⟨0, 0, 0⟩]

/-- What is known of any membrane recorded during a findMembrane run over
the axis list pts: the swapped spherePoint/center fields, the normal from
the centroid toward the recording axis candidate, a present score, and a
slab width that is an integral number of steps inside the thickness range. -/
def RecordedGood (pts : List Vec3) (c : Vec3) (p : ANVILProps) (m : Membrane) : Prop :=
  (∃ sp ∈ pts, m.spherePoint = some c ∧ m.center = some sp ∧
    m.normalVector = some (Vec3.sub sp c)) ∧
  (∃ q, m.qmax = some q) ∧
  ∃ N : ℕ, 1 ≤ N ∧ Vec3.distance m.planePoint1 m.planePoint2 = (N : ℝ) * p.stepSize ∧
    p.minThickness ≤ (N : ℝ) * p.stepSize ∧ (N : ℝ) * p.stepSize ≤ p.maxThickness

/-- The single-atom structure whose only residue is a buried protein CA:
one qualifying residue exists, but no window can ever score. -/
def atomsBuried : List Atom := [⟨true, "CA", ⟨0, 0, 0⟩, 0, "ALA"⟩]

/-- A structure with no protein CA atom at all. -/
def atomsEmpty : List Atom := [⟨false, "O", ⟨0, 0, 0⟩, 100, "HOH"⟩]

/-! ## C3: the Q-score formula computed by qValue. -/

/-- C3 counterexample: with window statistics (1, 0, 5) (hydrophobic count
nonzero) and global statistics (2, 2, 4), qValue returns 1/6 whereas the
claimed formula (with T the total component of the window triple) gives
-1/10: qValue divides by the sum Hphob + Hphil, not by the total field. -/
theorem qValue_total_field_cex :
    (⟨1, 0, 5⟩ : HphobHphil).hphob ≠ 0 ∧
    (qValueS ⟨1, 0, 5⟩ ⟨2, 2, 4⟩).1 ≠ qValueSpecT ⟨1, 0, 5⟩ ⟨2, 2, 4⟩ := by
  constructor
  · norm_num
  · show (qValueS ⟨1, 0, 5⟩ ⟨2, 2, 4⟩).1 ≠ qValueSpecT ⟨1, 0, 5⟩ ⟨2, 2, 4⟩
    simp only [qValueS, qValueSpecT]
    norm_num

/-- C3 (amended): for every window triple with nonzero hydrophobic count and
every global triple, the score computed by qValue equals the closed-form
formula in which the denominator uses T = Hphob + Hphil (the window's
weighted hydrophobic plus hydrophilic sum; the total field of the triple is
ignored) and G_total is the sum of the floor-adjusted G_hphob and G_hphil;
the floor adjustments are exactly the claimed ones. -/
theorem qValue_formula (currentStats initialStats : HphobHphil)
    (_h : currentStats.hphob ≠ 0) :
    (qValueS currentStats initialStats).1 = qValueSpecPartTot currentStats initialStats := by
  simp only [qValueS, qValueSpecPartTot]
  by_cases h1 : initialStats.hphob < 1 <;> by_cases h2 : initialStats.hphil < 1 <;>
    simp [h1, h2]

/-- Witness for C3: the amended formula at the concrete triples (1, 0, 5)
and (2, 2, 4). -/
theorem qValue_formula_witness :
    (⟨1, 0, 5⟩ : HphobHphil).hphob ≠ 0 ∧
    (qValueS ⟨1, 0, 5⟩ ⟨2, 2, 4⟩).1 = qValueSpecPartTot ⟨1, 0, 5⟩ ⟨2, 2, 4⟩ :=
  ⟨by norm_num, qValue_formula ⟨1, 0, 5⟩ ⟨2, 2, 4⟩ (by norm_num)⟩

/-! ## C5: the membrane selector. -/

/-- C5 counterexample: on exactly equal scores the selector returns the
refined (alternative) candidate, not the initial-pass candidate. -/
theorem selector_tie_prefers_refined_cex :
    tieMembraneA.qmax = tieMembraneB.qmax ∧
    selectMembrane (some tieMembraneA) (some tieMembraneB) = .ok (some tieMembraneB) ∧
    tieMembraneB ≠ tieMembraneA := by
  refine ⟨rfl, ?_, ?_⟩
  · simp [selectMembrane, qmaxDeref, tieMembraneA, tieMembraneB, Membrane.scored, jsGT]
  · intro h
    have := congrArg Membrane.planePoint1 h
    simp [tieMembraneA, tieMembraneB, Membrane.scored] at this

/-- C5 (amended): the selector returns the candidate with the strictly
higher score; when the two scores are exactly equal it returns the refined
(alternative) candidate. -/
theorem selector_strict (mi ma : Membrane) (qi qa : ℝ)
    (hi : mi.qmax = some qi) (ha : ma.qmax = some qa) :
    (qa < qi → selectMembrane (some mi) (some ma) = .ok (some mi)) ∧
    (qi ≤ qa → selectMembrane (some mi) (some ma) = .ok (some ma)) := by
  constructor
  · intro h
    simp [selectMembrane, qmaxDeref, hi, ha, jsGT, h]
  · intro h
    simp [selectMembrane, qmaxDeref, hi, ha, jsGT, not_lt.mpr h]

/-- Witness for C5: the amended selector behaviour at the two concrete tied
membranes. -/
theorem selector_strict_witness :
    tieMembraneA.qmax = some 1 ∧ tieMembraneB.qmax = some 1 ∧
    ((1 : ℝ) < 1 → selectMembrane (some tieMembraneA) (some tieMembraneB) =
      .ok (some tieMembraneA)) ∧
    ((1 : ℝ) ≤ 1 → selectMembrane (some tieMembraneA) (some tieMembraneB) =
      .ok (some tieMembraneB)) :=
  ⟨rfl, rfl,
    (selector_strict tieMembraneA tieMembraneB 1 1 rfl rfl).1,
    (selector_strict tieMembraneA tieMembraneB 1 1 rfl rfl).2⟩

/-! ## C6: the sphere sampler. -/

/-- Every sampled point lies at squared distance extent squared from the
centroid, whatever the spiral angles evaluate to. -/
theorem spherePointAt_sqDist (n : ℕ) (c : Vec3) (r : ℝ) (k : ℕ) :
    Vec3.squaredDistance (spherePointAt n c r k) c = r ^ 2 := by
  have h1 := Real.sin_sq_add_cos_sq (spherePhi n k)
  have h2 := Real.sin_sq_add_cos_sq (Real.arccos (sphereH n k))
  simp only [spherePointAt, Vec3.squaredDistance]
  linear_combination (r ^ 2 * Real.sin (Real.arccos (sphereH n k)) ^ 2) * h1 + r ^ 2 * h2

/-- C6: for every count N of at least two, centre C and nonnegative radius
R, generateSpherePoints produces exactly N points, each at Euclidean
distance R from C; the ordered sequence is a function of N, C and R alone
(the sampler is a pure function of these arguments in this embedding). -/
theorem generateSpherePoints_spec (n : ℕ) (c : Vec3) (r : ℝ)
    (_hn : 2 ≤ n) (hr : 0 ≤ r) :
    (generateSpherePoints n c r).length = n ∧
    ∀ p ∈ generateSpherePoints n c r, Vec3.distance p c = r := by
  constructor
  · simp [generateSpherePoints]
  · intro p hp
    simp only [generateSpherePoints, List.mem_map] at hp
    obtain ⟨i, _, rfl⟩ := hp
    rw [Vec3.distance, spherePointAt_sqDist, Real.sqrt_sq hr]

/-- Witness for C6: the sampler specification at N = 2, the origin and
radius 1. -/
theorem generateSpherePoints_spec_witness :
    2 ≤ 2 ∧ (0 : ℝ) ≤ 1 ∧
    ((generateSpherePoints 2 ⟨0, 0, 0⟩ 1).length = 2 ∧
      ∀ p ∈ generateSpherePoints 2 ⟨0, 0, 0⟩ 1, Vec3.distance p ⟨0, 0, 0⟩ = 1) :=
  ⟨le_refl 2, by norm_num, generateSpherePoints_spec 2 ⟨0, 0, 0⟩ 1 (le_refl 2) (by norm_num)⟩

/-! ## C10: termination of the findProximateAxes while loop. -/

/-- C10: the findProximateAxes loop terminates if and only if
numberOfSpherePoints is at most 30000: its candidate pool is the fixed list
of 30000 sphere points, all at distance extent from the centroid, so the
expanding threshold eventually admits all 30000 of them but can never admit
more. -/
theorem findProximateAxes_terminates_iff (numberOfSpherePoints : ℕ) (centroid : Vec3)
    (extent : ℝ) :
    proximateLoopTerminates numberOfSpherePoints centroid extent ↔
      numberOfSpherePoints ≤ 30000 := by
  constructor
  · rintro ⟨k, hk⟩
    calc numberOfSpherePoints ≤
        (proximateFilterAt numberOfSpherePoints centroid extent (4 + 0.2 * k)).length := hk
      _ ≤ (generateSpherePoints 30000 centroid extent).length := by
          unfold proximateFilterAt
          exact List.length_filter_le _ _
      _ = 30000 := by simp [generateSpherePoints]
  · intro hN
    rcases Nat.eq_zero_or_pos numberOfSpherePoints with h0 | hpos
    · exact ⟨0, by simp [h0]⟩
    obtain ⟨k, hk⟩ := exists_nat_ge (5 * (3 * |extent| + 1))
    refine ⟨k, ?_⟩
    have hNR : (1 : ℝ) ≤ (numberOfSpherePoints : ℝ) := by exact_mod_cast hpos
    have habs : |2 * extent / (numberOfSpherePoints : ℝ)| ≤ 2 * |extent| := by
      rw [abs_div, abs_mul]
      have h2 : |(2 : ℝ)| = 2 := by norm_num
      rw [h2, abs_of_nonneg (by linarith : (0 : ℝ) ≤ (numberOfSpherePoints : ℝ))]
      exact div_le_self (by positivity) hNR
    have hd : |extent| <
        2 * extent / (numberOfSpherePoints : ℝ) + (4 + 0.2 * k) := by
      have hneg := neg_abs_le (2 * extent / (numberOfSpherePoints : ℝ))
      linarith
    have hall : ∀ p ∈ generateSpherePoints 30000 centroid extent,
        (decide (Vec3.squaredDistance p centroid <
          (2 * extent / (numberOfSpherePoints : ℝ) + (4 + 0.2 * k)) *
            (2 * extent / (numberOfSpherePoints : ℝ) + (4 + 0.2 * k)))) = true := by
      intro p hp
      simp only [generateSpherePoints, List.mem_map] at hp
      obtain ⟨i, _, rfl⟩ := hp
      rw [decide_eq_true_eq, spherePointAt_sqDist]
      calc extent ^ 2 = |extent| * |extent| := by rw [abs_mul_abs_self]; ring
        _ < _ := mul_self_lt_mul_self (abs_nonneg extent) hd
    unfold proximateFilterAt
    rw [List.filter_eq_self.mpr hall]
    calc numberOfSpherePoints ≤ 30000 := hN
      _ = (generateSpherePoints 30000 centroid extent).length := by simp [generateSpherePoints]


/-! ## C4: the window accumulation. -/

/-- Folding in the Except monad over an appended list runs the two parts in
sequence. -/
theorem exceptFold_append {σ α : Type} (f : σ → α → Except JsErr σ) (l1 l2 : List α)
    (s : σ) :
    exceptFold f s (l1 ++ l2) =
      match exceptFold f s l1 with
      | .error e => .error e
      | .ok s' => exceptFold f s' l2 := by
  induction l1 generalizing s with
  | nil => simp [exceptFold]
  | cons a l ih =>
    show exceptFold f s (a :: (l ++ l2)) = _
    rw [exceptFold]
    cases hfa : f s a with
    | error e => simp [exceptFold, hfa]
    | ok s' => simp only [exceptFold, hfa, ih s']

/-- A list sum written as a range-indexed sum. -/
theorem list_sum_eq_range_sum (l : List ℝ) (d : ℝ) :
    l.sum = ∑ j ∈ Finset.range l.length, l.getD j d := by
  induction l with
  | nil => simp
  | cons a l ih =>
    rw [List.sum_cons, List.length_cons, Finset.sum_range_succ' (fun j => (a :: l).getD j d)]
    simp only [List.getD_cons_succ, List.getD_cons_zero]
    rw [← ih]
    ring

/-- Partial evaluation of the window accumulation loop: after m of the J
iterations the three accumulators hold the range sums with the half weight
applied to hphob and hphil at the two boundary indices and the total summed
at full weight. -/
theorem windowSums_fold (q : List Membrane) (i J : ℕ) (hJ : 1 ≤ J)
    (hs : ∀ j, j < J → q.get? (i + j) = some (q.getD (i + j) dfltMembrane)) :
    ∀ m, m ≤ J → ∀ a b c : ℝ,
      exceptFold
        (fun acc j =>
          match q.get? (i + j) with
          | none => .error .typeError
          | some ij =>
            if j = 0 ∨ (j : ℝ) = ((J : ℕ) : ℝ) - 1 then
              Except.ok (acc.1 + 0.5 * ij.stats.hphob, acc.2.1 + 0.5 * ij.stats.hphil,
                acc.2.2 + ij.stats.total)
            else
              Except.ok (acc.1 + ij.stats.hphob, acc.2.1 + ij.stats.hphil,
                acc.2.2 + ij.stats.total))
        (a, b, c) (List.range m) =
      .ok
        (a + ∑ j ∈ Finset.range m,
            (if j = 0 ∨ j = J - 1 then (1 : ℝ) / 2 else 1) *
              (q.getD (i + j) dfltMembrane).stats.hphob,
          b + ∑ j ∈ Finset.range m,
            (if j = 0 ∨ j = J - 1 then (1 : ℝ) / 2 else 1) *
              (q.getD (i + j) dfltMembrane).stats.hphil,
          c + ∑ j ∈ Finset.range m, (q.getD (i + j) dfltMembrane).stats.total) := by
  intro m
  induction m with
  | zero => intro _ a b c; simp [exceptFold]
  | succ m ih =>
    intro hm a b c
    rw [List.range_succ, exceptFold_append, ih (Nat.le_of_succ_le hm)]
    have hmJ : m < J := hm
    have hcond : (m = 0 ∨ (m : ℝ) = ((J : ℕ) : ℝ) - 1) ↔ (m = 0 ∨ m = J - 1) := by
      constructor
      · rintro (h | h)
        · exact Or.inl h
        · refine Or.inr ?_
          have hJR : ((m : ℝ)) = ((J - 1 : ℕ) : ℝ) := by
            rw [h, Nat.cast_sub hJ]; norm_num
          exact_mod_cast hJR
      · rintro (h | h)
        · exact Or.inl h
        · refine Or.inr ?_
          rw [h, Nat.cast_sub hJ]; norm_num
    show exceptFold _ _ [m] = _
    simp only [exceptFold, hs m hmJ, hcond]
    by_cases hb : m = 0 ∨ m = J - 1
    · rw [if_pos hb]
      simp only [exceptFold, Finset.sum_range_succ, if_pos hb]
      norm_num [add_assoc]
    · rw [if_neg hb]
      simp only [exceptFold, Finset.sum_range_succ, if_neg hb]
      norm_num [add_assoc]

/-- C4 counterexample: for the two-slice window with per-slice statistics
(1, 1, 2) and (3, 5, 8), the accumulated window statistics are (2, 3, 10) -
the total is accumulated at full weight - whereas the claimed all-trapezoidal
weighting gives (2, 3, 5). -/
theorem window_total_not_trapezoidal_cex :
    windowSums [Membrane.initial ⟨0, 0, 0⟩ ⟨0, 0, 0⟩ ⟨1, 1, 2⟩,
        Membrane.initial ⟨0, 0, 0⟩ ⟨0, 0, 0⟩ ⟨3, 5, 8⟩] 0 2 = .ok (2, 3, 10) ∧
    windowStatsSpec [⟨1, 1, 2⟩, ⟨3, 5, 8⟩] = (2, 3, 5) := by
  constructor
  · show exceptFold _ _ (List.range ⌈(2 : ℝ)⌉₊) = _
    have h2 : ⌈(2 : ℝ)⌉₊ = 2 := by
      rw [show ((2 : ℝ)) = ((2 : ℕ) : ℝ) by norm_num, Nat.ceil_natCast]
    rw [h2]
    simp only [List.range_succ, List.range_zero, List.nil_append, List.cons_append,
      List.append_nil]
    norm_num [exceptFold, Membrane.initial]
  · simp only [windowStatsSpec, trapSum, List.map_cons, List.map_nil, List.length_cons,
      List.length_nil, Finset.sum_range_succ, Finset.sum_range_zero]
    norm_num

/-- C4 (amended): for every window of J consecutive slices scored by the
slab scanner, the hydrophobic and hydrophilic sums are accumulated with
trapezoidal weighting (the first and last slice of the window contribute
half of their per-slice counts, interior slices their full counts), while
the total sum is accumulated at full weight for every slice of the window. -/
theorem window_sums_weighting (pre win post : List Membrane) (hwin : 1 ≤ win.length) :
    windowSums (pre ++ win ++ post) pre.length ((win.length : ℕ) : ℝ) =
      .ok (trapSum (win.map (fun m => m.stats.hphob)),
        trapSum (win.map (fun m => m.stats.hphil)),
        (win.map (fun m => m.stats.total)).sum) := by
  set q := pre ++ win ++ post with hq
  have hceil : ⌈((win.length : ℕ) : ℝ)⌉₊ = win.length := Nat.ceil_natCast _
  have hgetwin : ∀ j, j < win.length →
      q.get? (pre.length + j) = some (win.getD j dfltMembrane) := by
    intro j hj
    rw [hq, List.append_assoc, List.get?_append_right (by omega),
      show pre.length + j - pre.length = j by omega,
      List.get?_append hj, List.getD_eq_get?, List.get?_eq_get hj]
    rfl
  have hqd : ∀ j, j < win.length →
      q.getD (pre.length + j) dfltMembrane = win.getD j dfltMembrane := by
    intro j hj
    rw [List.getD_eq_get?, hgetwin j hj]
    rfl
  have hs : ∀ j, j < win.length →
      q.get? (pre.length + j) = some (q.getD (pre.length + j) dfltMembrane) := by
    intro j hj
    rw [hgetwin j hj, hqd j hj]
  rw [windowSums, hceil]
  rw [windowSums_fold q pre.length win.length hwin hs win.length (le_refl _) 0 0 0]
  have hphobEq : (0 : ℝ) + ∑ j ∈ Finset.range win.length,
      (if j = 0 ∨ j = win.length - 1 then (1 : ℝ) / 2 else 1) *
        (q.getD (pre.length + j) dfltMembrane).stats.hphob =
      trapSum (win.map (fun m => m.stats.hphob)) := by
    rw [zero_add, trapSum, List.length_map]
    refine Finset.sum_congr rfl ?_
    intro j hj
    have hjlt : j < win.length := Finset.mem_range.mp hj
    rw [hqd j hjlt, List.getD_eq_get?, List.getD_eq_get?, List.get?_map,
      List.get?_eq_get hjlt]
    rfl
  have hphilEq : (0 : ℝ) + ∑ j ∈ Finset.range win.length,
      (if j = 0 ∨ j = win.length - 1 then (1 : ℝ) / 2 else 1) *
        (q.getD (pre.length + j) dfltMembrane).stats.hphil =
      trapSum (win.map (fun m => m.stats.hphil)) := by
    rw [zero_add, trapSum, List.length_map]
    refine Finset.sum_congr rfl ?_
    intro j hj
    have hjlt : j < win.length := Finset.mem_range.mp hj
    rw [hqd j hjlt, List.getD_eq_get?, List.getD_eq_get?, List.get?_map,
      List.get?_eq_get hjlt]
    rfl
  have htotEq : (0 : ℝ) + ∑ j ∈ Finset.range win.length,
      (q.getD (pre.length + j) dfltMembrane).stats.total =
      (win.map (fun m => m.stats.total)).sum := by
    rw [zero_add, list_sum_eq_range_sum (win.map (fun m => m.stats.total)) 0,
      List.length_map]
    refine Finset.sum_congr rfl ?_
    intro j hj
    have hjlt : j < win.length := Finset.mem_range.mp hj
    rw [hqd j hjlt, List.getD_eq_get?, List.getD_eq_get?, List.get?_map,
      List.get?_eq_get hjlt]
    rfl
  rw [hphobEq, hphilEq, htotEq]

/-- Witness for C4: the amended weighting at the concrete two-slice window. -/
theorem window_sums_weighting_witness :
    1 ≤ ([Membrane.initial ⟨0, 0, 0⟩ ⟨0, 0, 0⟩ ⟨1, 1, 2⟩,
        Membrane.initial ⟨0, 0, 0⟩ ⟨0, 0, 0⟩ ⟨3, 5, 8⟩] : List Membrane).length ∧
    windowSums ([] ++ [Membrane.initial ⟨0, 0, 0⟩ ⟨0, 0, 0⟩ ⟨1, 1, 2⟩,
        Membrane.initial ⟨0, 0, 0⟩ ⟨0, 0, 0⟩ ⟨3, 5, 8⟩] ++ [])
        (List.length ([] : List Membrane))
        ((([Membrane.initial ⟨0, 0, 0⟩ ⟨0, 0, 0⟩ ⟨1, 1, 2⟩,
          Membrane.initial ⟨0, 0, 0⟩ ⟨0, 0, 0⟩ ⟨3, 5, 8⟩] : List Membrane).length : ℕ) : ℝ) =
      .ok (trapSum ([Membrane.initial ⟨0, 0, 0⟩ ⟨0, 0, 0⟩ ⟨1, 1, 2⟩,
          Membrane.initial ⟨0, 0, 0⟩ ⟨0, 0, 0⟩ ⟨3, 5, 8⟩].map (fun m => m.stats.hphob)),
        trapSum ([Membrane.initial ⟨0, 0, 0⟩ ⟨0, 0, 0⟩ ⟨1, 1, 2⟩,
          Membrane.initial ⟨0, 0, 0⟩ ⟨0, 0, 0⟩ ⟨3, 5, 8⟩].map (fun m => m.stats.hphil)),
        ([Membrane.initial ⟨0, 0, 0⟩ ⟨0, 0, 0⟩ ⟨1, 1, 2⟩,
          Membrane.initial ⟨0, 0, 0⟩ ⟨0, 0, 0⟩ ⟨3, 5, 8⟩].map (fun m => m.stats.total)).sum) :=
  ⟨by norm_num,
    window_sums_weighting []
      [Membrane.initial ⟨0, 0, 0⟩ ⟨0, 0, 0⟩ ⟨1, 1, 2⟩,
        Membrane.initial ⟨0, 0, 0⟩ ⟨0, 0, 0⟩ ⟨3, 5, 8⟩] [] (by norm_num)⟩

/-! ## Concrete evaluation of findMembrane on a small valid configuration. -/

theorem good_slice0 :
    sliceAt ⟨-2, 0, 0⟩ ⟨4, 0, 0⟩ 4 1 [goodRes] 0 =
      Membrane.initial ⟨-2, 0, 0⟩ ⟨-1, 0, 0⟩ ⟨1, 0, 1⟩ := by
  simp only [sliceAt, Vec3.scaleAndAdd, goodRes, filtered, filteredCounts, List.foldl_cons,
    List.foldl_nil, filterRejects, isInMembranePlane, Vec3.dot, isHydrophobic,
    HYDROPHOBIC_AMINO_ACIDS, HphobHphil.of2, Membrane.initial]
  norm_num

theorem good_slice1 :
    sliceAt ⟨-2, 0, 0⟩ ⟨4, 0, 0⟩ 4 1 [goodRes] 1 =
      Membrane.initial ⟨-1, 0, 0⟩ ⟨0, 0, 0⟩ ⟨0, 0, 0⟩ := by
  simp only [sliceAt, Vec3.scaleAndAdd, goodRes, filtered, filteredCounts, List.foldl_cons,
    List.foldl_nil, filterRejects, isInMembranePlane, Vec3.dot, isHydrophobic,
    HYDROPHOBIC_AMINO_ACIDS, HphobHphil.of2, Membrane.initial]
  norm_num

theorem good_slice2 :
    sliceAt ⟨-2, 0, 0⟩ ⟨4, 0, 0⟩ 4 1 [goodRes] 2 =
      Membrane.initial ⟨0, 0, 0⟩ ⟨1, 0, 0⟩ ⟨0, 0, 0⟩ := by
  simp only [sliceAt, Vec3.scaleAndAdd, goodRes, filtered, filteredCounts, List.foldl_cons,
    List.foldl_nil, filterRejects, isInMembranePlane, Vec3.dot, isHydrophobic,
    HYDROPHOBIC_AMINO_ACIDS, HphobHphil.of2, Membrane.initial]
  norm_num

theorem good_qvartemp :
    (List.range (sliceCount (Vec3.magnitude
        (Vec3.scale (Vec3.sub ⟨0, 0, 0⟩ ⟨-2, 0, 0⟩) 2)) goodParams.stepSize)).map
      (sliceAt ⟨-2, 0, 0⟩ (Vec3.scale (Vec3.sub ⟨0, 0, 0⟩ ⟨-2, 0, 0⟩) 2)
        (Vec3.magnitude (Vec3.scale (Vec3.sub ⟨0, 0, 0⟩ ⟨-2, 0, 0⟩) 2))
        goodParams.stepSize [goodRes]) =
    [Membrane.initial ⟨-2, 0, 0⟩ ⟨-1, 0, 0⟩ ⟨1, 0, 1⟩,
      Membrane.initial ⟨-1, 0, 0⟩ ⟨0, 0, 0⟩ ⟨0, 0, 0⟩,
      Membrane.initial ⟨0, 0, 0⟩ ⟨1, 0, 0⟩ ⟨0, 0, 0⟩] := by
  have hdiam : Vec3.scale (Vec3.sub ⟨0, 0, 0⟩ ⟨-2, 0, 0⟩) 2 = (⟨4, 0, 0⟩ : Vec3) := by
    simp only [Vec3.sub, Vec3.scale]
    norm_num
  have hmag : Vec3.magnitude (⟨4, 0, 0⟩ : Vec3) = 4 := by
    have hdot : Vec3.dot ⟨4, 0, 0⟩ ⟨4, 0, 0⟩ = 16 := by
      simp only [Vec3.dot]; norm_num
    rw [Vec3.magnitude, hdot, show (16 : ℝ) = 4 ^ 2 by norm_num,
      Real.sqrt_sq (by norm_num : (0 : ℝ) ≤ 4)]
  have hsc : sliceCount 4 goodParams.stepSize = 3 := by
    rw [sliceCount, show goodParams.stepSize = 1 from rfl,
      show ((4 : ℝ) - 1) / 1 = ((3 : ℕ) : ℝ) by norm_num, Nat.ceil_natCast]
  rw [hdiam, hmag, hsc, show goodParams.stepSize = 1 from rfl]
  simp only [List.range_succ, List.range_zero, List.nil_append, List.cons_append,
    List.append_nil, List.map_cons, List.map_nil, good_slice0, good_slice1, good_slice2]

/-- The window statistics of the first (and only) window of the good run. -/
theorem good_ws0 : windowSums
    [Membrane.initial ⟨-2, 0, 0⟩ ⟨-1, 0, 0⟩ ⟨1, 0, 1⟩,
      Membrane.initial ⟨-1, 0, 0⟩ ⟨0, 0, 0⟩ ⟨0, 0, 0⟩,
      Membrane.initial ⟨0, 0, 0⟩ ⟨1, 0, 0⟩ ⟨0, 0, 0⟩] 0
    (goodParams.minThickness / goodParams.stepSize - 1 + ((0 : ℕ) : ℝ)) =
    .ok (1 / 2, 0, 1) := by
  rw [windowSums, show ⌈goodParams.minThickness / goodParams.stepSize - 1 +
    ((0 : ℕ) : ℝ)⌉₊ = 1 by norm_num [goodParams]]
  simp only [List.range_succ, List.range_zero, List.nil_append, exceptFold,
    List.get?_cons_zero, Nat.add_zero, Membrane.initial]
  norm_num

/-- The real-indexed access qvartemp[0 + jmax] of the good run yields the
second slice. -/
theorem good_getAtReal1 : getAtReal
    [Membrane.initial ⟨-2, 0, 0⟩ ⟨-1, 0, 0⟩ ⟨1, 0, 1⟩,
      Membrane.initial ⟨-1, 0, 0⟩ ⟨0, 0, 0⟩ ⟨0, 0, 0⟩,
      Membrane.initial ⟨0, 0, 0⟩ ⟨1, 0, 0⟩ ⟨0, 0, 0⟩]
    (((0 : ℕ) : ℝ) + (goodParams.minThickness / goodParams.stepSize - 1 + ((0 : ℕ) : ℝ))) =
    some (Membrane.initial ⟨-1, 0, 0⟩ ⟨0, 0, 0⟩ ⟨0, 0, 0⟩) := by
  rw [getAtReal, if_pos (by norm_num [goodParams]),
    show ⌊((0 : ℕ) : ℝ) + (goodParams.minThickness / goodParams.stepSize - 1 +
      ((0 : ℕ) : ℝ))⌋₊ = 1 by norm_num [goodParams]]
  rfl

/-- The score of the good run's window: 2/3, and the adjusted statistics. -/
theorem good_qValueS :
    qValueS (HphobHphil.of3 (1 / 2) 0 1) ⟨1, 0, 1⟩ = (2 / 3, ⟨1, 1, 1⟩) := by
  rw [qValueS]
  norm_num [HphobHphil.of3]

/-- The good run's single window evaluation records goodMembrane. -/
theorem good_winstep0 : windowStep
    [Membrane.initial ⟨-2, 0, 0⟩ ⟨-1, 0, 0⟩ ⟨1, 0, 1⟩,
      Membrane.initial ⟨-1, 0, 0⟩ ⟨0, 0, 0⟩ ⟨0, 0, 0⟩,
      Membrane.initial ⟨0, 0, 0⟩ ⟨1, 0, 0⟩ ⟨0, 0, 0⟩]
    (goodParams.minThickness / goodParams.stepSize - 1 + ((0 : ℕ) : ℝ))
    ⟨0, 0, 0⟩ ⟨-2, 0, 0⟩ (none, 0, ⟨1, 0, 1⟩) 0 =
    .ok (some goodMembrane, 2 / 3, ⟨1, 1, 1⟩) := by
  rw [windowStep]
  rw [good_getAtReal1]
  rw [good_ws0]
  simp only [List.get?_cons_zero, Membrane.initial]
  rw [if_pos (by norm_num : (1 : ℝ) / 2 ≠ 0)]
  rw [good_qValueS]
  rw [if_pos (by norm_num : (0 : ℝ) < (2 / 3, (⟨1, 1, 1⟩ : HphobHphil)).1)]
  rw [goodMembrane]
  simp only [Membrane.scored, Vec3.sub]
  norm_num [HphobHphil.of3]

/-- The shared concrete evaluation: on the single axis candidate (-2, 0, 0)
with centroid at the origin, valid thickness range [2, 3] and one exposed
hydrophobic residue, findMembrane succeeds with score 2/3 and leaves the
initialStats record incremented from (1, 0, 1) to (1, 1, 1). -/
theorem findMembrane_goodEval :
    findMembrane [⟨-2, 0, 0⟩] ⟨0, 0, 0⟩ goodParams ⟨1, 0, 1⟩ [goodRes] =
      .ok (some goodMembrane, 2 / 3, ⟨1, 1, 1⟩) := by
  have hwidth : widthStep
      [Membrane.initial ⟨-2, 0, 0⟩ ⟨-1, 0, 0⟩ ⟨1, 0, 1⟩,
        Membrane.initial ⟨-1, 0, 0⟩ ⟨0, 0, 0⟩ ⟨0, 0, 0⟩,
        Membrane.initial ⟨0, 0, 0⟩ ⟨1, 0, 0⟩ ⟨0, 0, 0⟩]
      goodParams ⟨0, 0, 0⟩ ⟨-2, 0, 0⟩ (none, 0, ⟨1, 0, 1⟩) 0 =
      .ok (some goodMembrane, 2 / 3, ⟨1, 1, 1⟩) := by
    rw [widthStep]
    rw [show ⌈(([Membrane.initial ⟨-2, 0, 0⟩ ⟨-1, 0, 0⟩ ⟨1, 0, 1⟩,
        Membrane.initial ⟨-1, 0, 0⟩ ⟨0, 0, 0⟩ ⟨0, 0, 0⟩,
        Membrane.initial ⟨0, 0, 0⟩ ⟨1, 0, 0⟩ ⟨0, 0, 0⟩] : List Membrane).length : ℝ) - 1 -
        (goodParams.minThickness / goodParams.stepSize - 1 + ((0 : ℕ) : ℝ))⌉₊ = 1 by
      norm_num [goodParams]]
    simp only [List.range_succ, List.range_zero, List.nil_append, exceptFold, good_winstep0]
  have haxis : axisStep ⟨0, 0, 0⟩ goodParams [goodRes] (none, 0, ⟨1, 0, 1⟩) ⟨-2, 0, 0⟩ =
      .ok (some goodMembrane, 2 / 3, ⟨1, 1, 1⟩) := by
    rw [axisStep, good_qvartemp]
    rw [show widthIterCount goodParams.minThickness goodParams.maxThickness
        goodParams.stepSize = 1 by rw [widthIterCount]; norm_num [goodParams]]
    simp only [List.range_succ, List.range_zero, List.nil_append, exceptFold, hwidth]
  rw [findMembrane, exceptFold, haxis]
  simp only [exceptFold]

/-! ## Concrete evaluation of findMembrane on an inverted thickness range. -/

theorem bad_qvartemp :
    (List.range (sliceCount (Vec3.magnitude
        (Vec3.scale (Vec3.sub ⟨0, 0, 0⟩ ⟨-4, 0, 0⟩) 2)) badParams.stepSize)).map
      (sliceAt ⟨-4, 0, 0⟩ (Vec3.scale (Vec3.sub ⟨0, 0, 0⟩ ⟨-4, 0, 0⟩) 2)
        (Vec3.magnitude (Vec3.scale (Vec3.sub ⟨0, 0, 0⟩ ⟨-4, 0, 0⟩) 2))
        badParams.stepSize [badRes]) =
    [Membrane.initial ⟨-4, 0, 0⟩ ⟨-3, 0, 0⟩ ⟨0, 0, 0⟩,
      Membrane.initial ⟨-3, 0, 0⟩ ⟨-2, 0, 0⟩ ⟨1, 0, 1⟩,
      Membrane.initial ⟨-2, 0, 0⟩ ⟨-1, 0, 0⟩ ⟨0, 0, 0⟩,
      Membrane.initial ⟨-1, 0, 0⟩ ⟨0, 0, 0⟩ ⟨0, 0, 0⟩,
      Membrane.initial ⟨0, 0, 0⟩ ⟨1, 0, 0⟩ ⟨0, 0, 0⟩,
      Membrane.initial ⟨1, 0, 0⟩ ⟨2, 0, 0⟩ ⟨0, 0, 0⟩,
      Membrane.initial ⟨2, 0, 0⟩ ⟨3, 0, 0⟩ ⟨0, 0, 0⟩] := by
  have hdiam : Vec3.scale (Vec3.sub ⟨0, 0, 0⟩ ⟨-4, 0, 0⟩) 2 = (⟨8, 0, 0⟩ : Vec3) := by
    simp only [Vec3.sub, Vec3.scale]
    norm_num
  have hmag : Vec3.magnitude (⟨8, 0, 0⟩ : Vec3) = 8 := by
    have hdot : Vec3.dot ⟨8, 0, 0⟩ ⟨8, 0, 0⟩ = 64 := by
      simp only [Vec3.dot]; norm_num
    rw [Vec3.magnitude, hdot, show (64 : ℝ) = 8 ^ 2 by norm_num,
      Real.sqrt_sq (by norm_num : (0 : ℝ) ≤ 8)]
  have hsc : sliceCount 8 badParams.stepSize = 7 := by
    rw [sliceCount, show badParams.stepSize = 1 from rfl,
      show ((8 : ℝ) - 1) / 1 = ((7 : ℕ) : ℝ) by norm_num, Nat.ceil_natCast]
  rw [hdiam, hmag, hsc, show badParams.stepSize = 1 from rfl]
  simp only [List.range_succ, List.range_zero, List.nil_append, List.cons_append,
    List.append_nil, List.map_cons, List.map_nil]
  simp only [sliceAt, Vec3.scaleAndAdd, badRes, filtered, filteredCounts, List.foldl_cons,
    List.foldl_nil, filterRejects, isInMembranePlane, Vec3.dot, isHydrophobic,
    HYDROPHOBIC_AMINO_ACIDS, HphobHphil.of2, Membrane.initial]
  norm_num

theorem bad_ws0 :
    windowSums badQvar 0 (badParams.minThickness / badParams.stepSize - 1 + ((0 : ℕ) : ℝ)) =
      .ok (1, 0, 1) := by
  rw [windowSums, show ⌈badParams.minThickness / badParams.stepSize - 1 +
    ((0 : ℕ) : ℝ)⌉₊ = 4 by norm_num [badParams]]
  simp only [List.range_succ, List.range_zero, List.nil_append, List.cons_append,
    List.append_nil]
  simp only [exceptFold, badQvar, List.get?_cons_zero, List.get?_cons_succ,
    Membrane.initial, badParams]
  norm_num

theorem bad_ws1 :
    windowSums badQvar 1 (badParams.minThickness / badParams.stepSize - 1 + ((0 : ℕ) : ℝ)) =
      .ok (1 / 2, 0, 1) := by
  rw [windowSums, show ⌈badParams.minThickness / badParams.stepSize - 1 +
    ((0 : ℕ) : ℝ)⌉₊ = 4 by norm_num [badParams]]
  simp only [List.range_succ, List.range_zero, List.nil_append, List.cons_append,
    List.append_nil]
  simp only [exceptFold, badQvar, List.get?_cons_zero, List.get?_cons_succ,
    Membrane.initial, badParams]
  norm_num

theorem bad_winstep0 :
    windowStep badQvar (badParams.minThickness / badParams.stepSize - 1 + ((0 : ℕ) : ℝ))
      ⟨0, 0, 0⟩ ⟨-4, 0, 0⟩ (none, 0, ⟨1, 0, 1⟩) 0 =
      .ok (some badMembrane, 1, ⟨1, 1, 1⟩) := by
  rw [windowStep]
  rw [show getAtReal badQvar (((0 : ℕ) : ℝ) +
      (badParams.minThickness / badParams.stepSize - 1 + ((0 : ℕ) : ℝ))) =
      some (Membrane.initial ⟨0, 0, 0⟩ ⟨1, 0, 0⟩ ⟨0, 0, 0⟩) by
    rw [getAtReal, if_pos (by norm_num [badParams]),
      show ⌊((0 : ℕ) : ℝ) + (badParams.minThickness / badParams.stepSize - 1 +
        ((0 : ℕ) : ℝ))⌋₊ = 4 by norm_num [badParams]]
    rfl]
  rw [bad_ws0]
  simp only [badQvar, List.get?_cons_zero, Membrane.initial]
  rw [if_pos (by norm_num : (1 : ℝ) ≠ 0)]
  rw [show qValueS (HphobHphil.of3 1 0 1) ⟨1, 0, 1⟩ = (1, ⟨1, 1, 1⟩) by
    rw [qValueS]
    norm_num [HphobHphil.of3]]
  rw [if_pos (by norm_num : (0 : ℝ) < ((1 : ℝ), (⟨1, 1, 1⟩ : HphobHphil)).1)]
  rw [badMembrane]
  simp only [Membrane.scored, Vec3.sub]
  norm_num [HphobHphil.of3]

theorem bad_winstep1 :
    windowStep badQvar (badParams.minThickness / badParams.stepSize - 1 + ((0 : ℕ) : ℝ))
      ⟨0, 0, 0⟩ ⟨-4, 0, 0⟩ (some badMembrane, 1, ⟨1, 1, 1⟩) 1 =
      .ok (some badMembrane, 1, ⟨1, 1, 1⟩) := by
  rw [windowStep]
  rw [show getAtReal badQvar (((1 : ℕ) : ℝ) +
      (badParams.minThickness / badParams.stepSize - 1 + ((0 : ℕ) : ℝ))) =
      some (Membrane.initial ⟨1, 0, 0⟩ ⟨2, 0, 0⟩ ⟨0, 0, 0⟩) by
    rw [getAtReal, if_pos (by norm_num [badParams]),
      show ⌊((1 : ℕ) : ℝ) + (badParams.minThickness / badParams.stepSize - 1 +
        ((0 : ℕ) : ℝ))⌋₊ = 5 by norm_num [badParams]]
    rfl]
  rw [bad_ws1]
  simp only [badQvar, List.get?_cons_zero, List.get?_cons_succ, Membrane.initial]
  rw [if_pos (by norm_num : (1 : ℝ) / 2 ≠ 0)]
  rw [show qValueS (HphobHphil.of3 (1 / 2) 0 1) ⟨1, 1, 1⟩ = (2 / 3, ⟨1, 1, 1⟩) by
    rw [qValueS]
    norm_num [HphobHphil.of3]]
  rw [if_neg (by norm_num : ¬ ((1 : ℝ) < ((2 / 3 : ℝ), (⟨1, 1, 1⟩ : HphobHphil)).1))]

/-- The shared concrete evaluation of the bad run: findMembrane succeeds,
records the membrane with plane points (-4, 0, 0) and (1, 0, 0) - slab
width 5 - and leaves the initialStats record changed to (1, 1, 1). -/
theorem findMembrane_badEval :
    findMembrane [⟨-4, 0, 0⟩] ⟨0, 0, 0⟩ badParams ⟨1, 0, 1⟩ [badRes] =
      .ok (some badMembrane, 1, ⟨1, 1, 1⟩) := by
  have hwidth : widthStep badQvar badParams ⟨0, 0, 0⟩ ⟨-4, 0, 0⟩ (none, 0, ⟨1, 0, 1⟩) 0 =
      .ok (some badMembrane, 1, ⟨1, 1, 1⟩) := by
    rw [widthStep]
    rw [show ⌈((badQvar.length : ℕ) : ℝ) - 1 -
        (badParams.minThickness / badParams.stepSize - 1 + ((0 : ℕ) : ℝ))⌉₊ = 2 by
      norm_num [badParams, badQvar]]
    simp only [List.range_succ, List.range_zero, List.nil_append, List.cons_append,
      List.append_nil]
    simp only [exceptFold, bad_winstep0, bad_winstep1]
  have haxis : axisStep ⟨0, 0, 0⟩ badParams [badRes] (none, 0, ⟨1, 0, 1⟩) ⟨-4, 0, 0⟩ =
      .ok (some badMembrane, 1, ⟨1, 1, 1⟩) := by
    rw [axisStep, bad_qvartemp]
    rw [show widthIterCount badParams.minThickness badParams.maxThickness
        badParams.stepSize = 1 by rw [widthIterCount]; norm_num [badParams]]
    have hq : [Membrane.initial ⟨-4, 0, 0⟩ ⟨-3, 0, 0⟩ ⟨0, 0, 0⟩,
        Membrane.initial ⟨-3, 0, 0⟩ ⟨-2, 0, 0⟩ ⟨1, 0, 1⟩,
        Membrane.initial ⟨-2, 0, 0⟩ ⟨-1, 0, 0⟩ ⟨0, 0, 0⟩,
        Membrane.initial ⟨-1, 0, 0⟩ ⟨0, 0, 0⟩ ⟨0, 0, 0⟩,
        Membrane.initial ⟨0, 0, 0⟩ ⟨1, 0, 0⟩ ⟨0, 0, 0⟩,
        Membrane.initial ⟨1, 0, 0⟩ ⟨2, 0, 0⟩ ⟨0, 0, 0⟩,
        Membrane.initial ⟨2, 0, 0⟩ ⟨3, 0, 0⟩ ⟨0, 0, 0⟩] = badQvar := rfl
    rw [hq]
    simp only [List.range_succ, List.range_zero, List.nil_append, exceptFold, hwidth]
  rw [findMembrane, exceptFold, haxis]
  simp only [exceptFold]

/-- Distance between two points sharing the base point and direction of
scaleAndAdd. -/
theorem dist_scaleAndAdd (sp diam : Vec3) (a b : ℝ) :
    Vec3.distance (Vec3.scaleAndAdd sp diam a) (Vec3.scaleAndAdd sp diam b) =
      |a - b| * Vec3.magnitude diam := by
  rw [Vec3.distance, Vec3.squaredDistance, Vec3.magnitude, Vec3.scaleAndAdd,
    Vec3.scaleAndAdd, Vec3.dot]
  have hexp : (sp.x + diam.x * a - (sp.x + diam.x * b)) ^ 2 +
      (sp.y + diam.y * a - (sp.y + diam.y * b)) ^ 2 +
      (sp.z + diam.z * a - (sp.z + diam.z * b)) ^ 2 =
      (a - b) ^ 2 * (diam.x * diam.x + diam.y * diam.y + diam.z * diam.z) := by ring
  rw [hexp, Real.sqrt_mul (sq_nonneg _), Real.sqrt_sq_eq_abs]

/-- C2 counterexample: on the inverted configuration (minThickness 5,
maxThickness 2, stepSize 1) findMembrane succeeds and the winning slab width
is 5, outside [minThickness, maxThickness] even with one stepSize of
tolerance at the bounds (5 > maxThickness + stepSize = 3): the source never
validates the thickness range and the first width evaluated is minThickness. -/
theorem width_exceeds_bounds_cex :
    findMembrane [⟨-4, 0, 0⟩] ⟨0, 0, 0⟩ badParams ⟨1, 0, 1⟩ [badRes] =
      .ok (some badMembrane, 1, ⟨1, 1, 1⟩) ∧
    Vec3.distance badMembrane.planePoint1 badMembrane.planePoint2 = 5 ∧
    badParams.maxThickness + badParams.stepSize < 5 := by
  refine ⟨findMembrane_badEval, ?_, by norm_num [badParams]⟩
  have h1 : badMembrane.planePoint1 = (⟨-4, 0, 0⟩ : Vec3) := rfl
  have h2 : badMembrane.planePoint2 = (⟨1, 0, 0⟩ : Vec3) := rfl
  rw [h1, h2, Vec3.distance, Vec3.squaredDistance]
  norm_num
  rw [show (25 : ℝ) = 5 ^ 2 by norm_num, Real.sqrt_sq (by norm_num : (0 : ℝ) ≤ 5)]

/-- C8 counterexample: a single-axis findMembrane invocation changes the
shared initialStats record from (1, 0, 1) to (1, 1, 1): qValue increments
the global hydrophilic count in place when it is below 1. -/
theorem findMembrane_mutates_stats_cex :
    findMembrane [⟨-4, 0, 0⟩] ⟨0, 0, 0⟩ badParams ⟨1, 0, 1⟩ [badRes] =
      .ok (some badMembrane, 1, ⟨1, 1, 1⟩) ∧
    (⟨1, 1, 1⟩ : HphobHphil) ≠ ⟨1, 0, 1⟩ := by
  refine ⟨findMembrane_badEval, ?_⟩
  intro h
  have := congrArg HphobHphil.hphil h
  norm_num at this

/-- C9 counterexample: the membrane recorded by findMembrane stores the
centroid (0, 0, 0) in its spherePoint field, not the axis candidate
(-4, 0, 0): the call site of Membrane.scored passes the centroid in the
spherePoint position and the axis candidate in the center position. -/
theorem recorded_spherePoint_cex :
    findMembrane [⟨-4, 0, 0⟩] ⟨0, 0, 0⟩ badParams ⟨1, 0, 1⟩ [badRes] =
      .ok (some badMembrane, 1, ⟨1, 1, 1⟩) ∧
    badMembrane.spherePoint = some ⟨0, 0, 0⟩ ∧
    badMembrane.spherePoint ≠ some ⟨-4, 0, 0⟩ := by
  refine ⟨findMembrane_badEval, rfl, ?_⟩
  intro h
  have h2 : (⟨0, 0, 0⟩ : Vec3) = ⟨-4, 0, 0⟩ := Option.some_inj.mp h
  have := congrArg Vec3.x h2
  norm_num at this

/-! ## Invariant preservation through the search folds. -/

/-- An invariant preserved by every successful step of a fold is preserved
by the whole fold. -/
theorem exceptFold_inv {σ α : Type} (f : σ → α → Except JsErr σ) (P : σ → Prop) :
    ∀ l : List α, (∀ s a, a ∈ l → P s → ∀ s', f s a = .ok s' → P s') →
      ∀ s s', exceptFold f s l = .ok s' → P s → P s' := by
  intro l
  induction l with
  | nil =>
    intro _ s s' h hP
    rw [exceptFold] at h
    cases h
    exact hP
  | cons a l ih =>
    intro hstep s s' h hP
    rw [exceptFold] at h
    cases hfa : f s a with
    | error e => rw [hfa] at h; cases h
    | ok s1 =>
      rw [hfa] at h
      exact ih (fun s a ha => hstep s a (List.mem_cons_of_mem _ ha)) s1 s' h
        (hstep s a (List.mem_cons_self _ _) hP s1 hfa)

/-- qValue leaves the global statistics record unchanged when both global
counts are at least 1. -/
theorem qValueS_state_eq (cur init : HphobHphil) (h1 : 1 ≤ init.hphob)
    (h2 : 1 ≤ init.hphil) : (qValueS cur init).2 = init := by
  rw [qValueS]
  simp [not_lt.mpr h1, not_lt.mpr h2]

/-- One window evaluation leaves the threaded initialStats record unchanged
when both of its counts are at least 1. -/
theorem windowStep_stats (qvar : List Membrane) (jmaxR : ℝ) (c sp : Vec3)
    (init : HphobHphil) (h1 : 1 ≤ init.hphob) (h2 : 1 ≤ init.hphil)
    (st : SearchState) (i : ℕ) (st' : SearchState) (hP : st.2.2 = init)
    (h : windowStep qvar jmaxR c sp st i = .ok st') : st'.2.2 = init := by
  simp only [windowStep] at h
  split at h
  · cases h
  split at h
  · cases h
  split at h
  · cases h
  rename_i hphob hphil total heq
  split at h
  · have ha : 1 ≤ st.2.2.hphob := by rw [hP]; exact h1
    have hb : 1 ≤ st.2.2.hphil := by rw [hP]; exact h2
    split at h
    · cases h
      exact (qValueS_state_eq (HphobHphil.of3 hphob hphil total) st.2.2 ha hb).trans hP
    · cases h
      exact (qValueS_state_eq (HphobHphil.of3 hphob hphil total) st.2.2 ha hb).trans hP
  · cases h
    exact hP

/-- C8 (amended): a single-axis slab-scanner invocation leaves the shared
global reference statistics unchanged provided both global counts are at
least 1 (as they are whenever at least one exposed hydrophobic and one
exposed hydrophilic residue exist); with a global count below 1, qValue
adjusts the shared record in place, as the counterexample shows. -/
theorem findMembrane_stats_frame (pts : List Vec3) (c : Vec3) (p : ANVILProps)
    (init : HphobHphil) (res : List Residue) (h1 : 1 ≤ init.hphob) (h2 : 1 ≤ init.hphil)
    (st' : SearchState) (h : findMembrane pts c p init res = .ok st') :
    st'.2.2 = init := by
  rw [findMembrane] at h
  refine exceptFold_inv _ (fun st => st.2.2 = init) pts ?_ _ _ h rfl
  intro st sp _ hP st1 hstep
  simp only [axisStep] at hstep
  refine exceptFold_inv _ (fun st => st.2.2 = init) _ ?_ _ _ hstep hP
  intro st2 k _ hP2 st2' hw
  simp only [widthStep] at hw
  refine exceptFold_inv _ (fun st => st.2.2 = init) _ ?_ _ _ hw hP2
  intro st3 i _ hP3 st3' hwin
  exact windowStep_stats _ _ _ _ init h1 h2 st3 i st3' hP3 hwin

theorem sliceAt_pp1 (sp diam : Vec3) (dn step : ℝ) (res : List Residue) (n : ℕ) :
    (sliceAt sp diam dn step res n).planePoint1 =
      Vec3.scaleAndAdd sp diam ((n * step) / dn) := rfl

theorem sliceAt_pp2 (sp diam : Vec3) (dn step : ℝ) (res : List Residue) (n : ℕ) :
    (sliceAt sp diam dn step res n).planePoint2 =
      Vec3.scaleAndAdd sp diam ((n * step + step) / dn) := rfl

/-- What one successful window evaluation can do to the recorded membrane:
either it keeps the previous record, or the new record stores the centroid
in the spherePoint field, the axis candidate in the center field, the normal
from centroid toward axis candidate, some score, and two plane points whose
distance is minThickness + k * stepSize, an integral number of steps. -/
theorem windowStep_recorded (sp c diam : Vec3) (p : ANVILProps) (res : List Residue)
    (k : ℕ) (st st' : SearchState) (i : ℕ)
    (hstep : 0 < p.stepSize) (hmin : 0 < p.minThickness)
    (h : windowStep ((List.range (sliceCount (Vec3.magnitude diam) p.stepSize)).map
          (sliceAt sp diam (Vec3.magnitude diam) p.stepSize res))
        (p.minThickness / p.stepSize - 1 + (k : ℕ)) c sp st i = .ok st') :
    ∀ m, st'.1 = some m →
      st.1 = some m ∨
        (m.spherePoint = some c ∧ m.center = some sp ∧
          m.normalVector = some (Vec3.sub sp c) ∧ (∃ q, m.qmax = some q) ∧
          ∃ N : ℕ, 1 ≤ N ∧
            Vec3.distance m.planePoint1 m.planePoint2 = (N : ℝ) * p.stepSize ∧
            (N : ℝ) * p.stepSize = p.minThickness + k * p.stepSize) := by
  intro m hm
  simp only [windowStep] at h
  split at h
  · cases h
  rename_i mi hgi
  split at h
  · cases h
  rename_i mj hgj
  split at h
  · cases h
  rename_i hphob hphil total heq
  split at h
  · split at h
    · -- the new membrane is recorded
      cases h
      refine Or.inr ?_
      have hm' : Membrane.scored c mi.planePoint1 mj.planePoint2
          (HphobHphil.of3 hphob hphil total)
          (qValueS (HphobHphil.of3 hphob hphil total) st.2.2).1 sp = m :=
        Option.some_inj.mp hm
      subst hm'
      -- decompose the slice accesses
      rw [List.get?_map] at hgi
      obtain ⟨a, hga, hfa⟩ := Option.map_eq_some'.mp hgi
      have hilt : i < sliceCount (Vec3.magnitude diam) p.stepSize := by
        obtain ⟨hlen, -⟩ := List.get?_eq_some.mp hga
        simpa using hlen
      have hai : a = i := by
        rw [List.get?_range hilt] at hga
        exact (Option.some_inj.mp hga).symm
      subst a
      subst hfa
      rw [getAtReal] at hgj
      split at hgj
      case isFalse => cases hgj
      rename_i hx
      rw [List.get?_map] at hgj
      obtain ⟨b, hgb, hfb⟩ := Option.map_eq_some'.mp hgj
      have hnlt : ⌊(i : ℝ) + (p.minThickness / p.stepSize - 1 + (k : ℕ))⌋₊ <
          sliceCount (Vec3.magnitude diam) p.stepSize := by
        obtain ⟨hlen, -⟩ := List.get?_eq_some.mp hgb
        simpa using hlen
      have hbn : b = ⌊(i : ℝ) + (p.minThickness / p.stepSize - 1 + (k : ℕ))⌋₊ := by
        rw [List.get?_range hnlt] at hgb
        exact (Option.some_inj.mp hgb).symm
      subst hbn
      subst hfb
      -- abbreviations
      set dn := Vec3.magnitude diam with hdn
      set n := ⌊(i : ℝ) + (p.minThickness / p.stepSize - 1 + (k : ℕ))⌋₊ with hn
      have hxr : ((n : ℕ) : ℝ) = (i : ℝ) + (p.minThickness / p.stepSize - 1 + (k : ℕ)) := hx
      -- positivity of the diameter length
      have hdnpos : 0 < dn := by
        have hcpos : 0 < sliceCount dn p.stepSize := by omega
        have hratio : 0 < (dn - p.stepSize) / p.stepSize := Nat.ceil_pos.mp hcpos
        have hsub : 0 < dn - p.stepSize := by
          by_contra hle
          push_neg at hle
          have : (dn - p.stepSize) / p.stepSize ≤ 0 :=
            div_nonpos_of_nonpos_of_nonneg hle (le_of_lt hstep)
          linarith
        linarith
      have hdiv : 0 < p.minThickness / p.stepSize := div_pos hmin hstep
      have hk0 : (0 : ℝ) ≤ (k : ℕ) := Nat.cast_nonneg k
      -- i is at most n
      have hin : i ≤ n := by
        have h1 : (i : ℝ) < ((n + 1 : ℕ) : ℝ) := by
          push_cast
          linarith [hxr]
        have h2 : i < n + 1 := by exact_mod_cast h1
        omega
      have hNr : ((n + 1 - i : ℕ) : ℝ) = (n : ℝ) + 1 - i := by
        rw [Nat.cast_sub (by omega : i ≤ n + 1)]
        push_cast
        ring
      have hw : (n : ℝ) + 1 - i = p.minThickness / p.stepSize + (k : ℕ) := by
        rw [hxr]; ring
      refine ⟨rfl, rfl, rfl, ⟨_, rfl⟩, n + 1 - i, by omega, ?_, ?_⟩
      · show Vec3.distance (sliceAt sp diam dn p.stepSize res i).planePoint1
          (sliceAt sp diam dn p.stepSize res n).planePoint2 = _
        rw [sliceAt_pp1, sliceAt_pp2, dist_scaleAndAdd]
        have habs : |(i : ℝ) * p.stepSize / dn - ((n : ℝ) * p.stepSize + p.stepSize) / dn| =
            (((n : ℝ) + 1 - i) * p.stepSize) / dn := by
          rw [div_sub_div_same, abs_div, abs_of_pos hdnpos]
          congr 1
          rw [abs_of_neg (by nlinarith :
            (i : ℝ) * p.stepSize - ((n : ℝ) * p.stepSize + p.stepSize) < 0)]
          ring
        rw [habs, div_mul_cancel₀ _ (ne_of_gt hdnpos), hNr]
      · rw [hNr, hw, add_mul, div_mul_cancel₀ _ (ne_of_gt hstep)]
    · cases h
      exact Or.inl hm
  · cases h
    exact Or.inl hm

/-- Any membrane present in the final state of findMembrane satisfies
RecordedGood, for a positive step, positive minThickness and
minThickness at most maxThickness. -/
theorem findMembrane_recorded (pts : List Vec3) (c : Vec3) (p : ANVILProps)
    (init : HphobHphil) (res : List Residue) (st' : SearchState)
    (hstep : 0 < p.stepSize) (hmin : 0 < p.minThickness)
    (hmm : p.minThickness ≤ p.maxThickness)
    (h : findMembrane pts c p init res = .ok st') :
    ∀ m, st'.1 = some m → RecordedGood pts c p m := by
  rw [findMembrane] at h
  refine exceptFold_inv _ (fun st => ∀ m, st.1 = some m → RecordedGood pts c p m)
    pts ?_ _ _ h (fun m hm => Option.noConfusion hm)
  intro st sp hsp hP st1 hax
  simp only [axisStep] at hax
  refine exceptFold_inv _ (fun st => ∀ m, st.1 = some m → RecordedGood pts c p m)
    _ ?_ _ _ hax hP
  intro st2 k hk hP2 st2' hw
  have hkb : k = 0 ∨ p.minThickness + (k : ℕ) * p.stepSize ≤ p.maxThickness := by
    rcases Nat.eq_zero_or_pos k with rfl | hkpos
    · exact Or.inl rfl
    · refine Or.inr ?_
      have hkK := List.mem_range.mp hk
      rw [widthIterCount] at hkK
      split at hkK
      · have hceil : k < ⌈(p.maxThickness - p.minThickness) / p.stepSize⌉₊ := by omega
        have hkr : (k : ℝ) < (p.maxThickness - p.minThickness) / p.stepSize :=
          Nat.lt_ceil.mp hceil
        have hks : (k : ℝ) * p.stepSize < p.maxThickness - p.minThickness := by
          have := mul_lt_mul_of_pos_right hkr hstep
          rwa [div_mul_cancel₀ _ (ne_of_gt hstep)] at this
        linarith
      · omega
  simp only [widthStep] at hw
  refine exceptFold_inv _ (fun st => ∀ m, st.1 = some m → RecordedGood pts c p m)
    _ ?_ _ _ hw hP2
  intro st3 i _ hP3 st3' hwin
  intro m hm
  rcases windowStep_recorded sp c (Vec3.scale (Vec3.sub c sp) 2) p res k st3 st3' i
      hstep hmin hwin m hm with hold | ⟨hsp', hc', hn', hq', N, hN1, hdist, hWidth⟩
  · exact hP3 m hold
  · refine ⟨⟨sp, hsp, hsp', hc', hn'⟩, hq', N, hN1, hdist, ?_, ?_⟩
    · rw [hWidth]
      have : 0 ≤ (k : ℝ) * p.stepSize :=
        mul_nonneg (Nat.cast_nonneg k) (le_of_lt hstep)
      linarith
    · rw [hWidth]
      rcases hkb with rfl | hle
      · simpa using hmm
      · exact hle

/-- C2 (amended): whenever findMembrane succeeds with a recorded membrane
under a valid configuration (positive stepSize, positive minThickness,
minThickness at most maxThickness), the winning slab width - the distance
between the two plane points - is a positive integer multiple of stepSize
and lies within [minThickness, maxThickness]; on an inverted thickness
range the source validates nothing and the counterexample shows a width of
minThickness outside the claimed tolerance band. -/
theorem winning_width_valid (pts : List Vec3) (c : Vec3) (p : ANVILProps)
    (init : HphobHphil) (res : List Residue) (m : Membrane) (q : ℝ) (stats : HphobHphil)
    (hstep : 0 < p.stepSize) (hmin : 0 < p.minThickness)
    (hmm : p.minThickness ≤ p.maxThickness)
    (h : findMembrane pts c p init res = .ok (some m, q, stats)) :
    ∃ N : ℕ, 1 ≤ N ∧
      Vec3.distance m.planePoint1 m.planePoint2 = (N : ℝ) * p.stepSize ∧
      p.minThickness ≤ (N : ℝ) * p.stepSize ∧ (N : ℝ) * p.stepSize ≤ p.maxThickness :=
  (findMembrane_recorded pts c p init res (some m, q, stats) hstep hmin hmm h m rfl).2.2

/-- Witness for C2: the amended width property at the good run. -/
theorem winning_width_valid_witness :
    0 < goodParams.stepSize ∧ 0 < goodParams.minThickness ∧
    goodParams.minThickness ≤ goodParams.maxThickness ∧
    ∃ N : ℕ, 1 ≤ N ∧
      Vec3.distance goodMembrane.planePoint1 goodMembrane.planePoint2 =
        (N : ℝ) * goodParams.stepSize ∧
      goodParams.minThickness ≤ (N : ℝ) * goodParams.stepSize ∧
      (N : ℝ) * goodParams.stepSize ≤ goodParams.maxThickness :=
  ⟨by norm_num [goodParams], by norm_num [goodParams], by norm_num [goodParams],
    winning_width_valid [⟨-2, 0, 0⟩] ⟨0, 0, 0⟩ goodParams ⟨1, 0, 1⟩ [goodRes]
      goodMembrane (2 / 3) ⟨1, 1, 1⟩ (by norm_num [goodParams]) (by norm_num [goodParams])
      (by norm_num [goodParams]) findMembrane_goodEval⟩

/-- C9 (amended): whenever a window improves the running maximum score -
the window described by the slice at index i, the slice accessed at real
index i + jmax, the accumulated statistics with nonzero hydrophobic sum,
and a score above the current qmax - the membrane recorded in the new
search state stores exactly the winning window's two boundary points
(planePoint1 of the window's first slice, planePoint2 of the slice at
i + jmax), the window's statistics, the window's score (which also becomes
the new running maximum), and a normal vector directed from the centroid
toward the axis candidate; however the spherePoint field stores the
centroid and the center field stores the axis candidate, because the call
site passes the two points to Membrane.scored in swapped positions. -/
theorem recorded_fields (qvartemp : List Membrane) (jmaxR : ℝ) (c sp : Vec3)
    (st st' : SearchState) (i : ℕ) (mi mj : Membrane) (hphob hphil total : ℝ)
    (hgi : qvartemp.get? i = some mi)
    (hgj : getAtReal qvartemp ((i : ℝ) + jmaxR) = some mj)
    (hsums : windowSums qvartemp i jmaxR = .ok (hphob, hphil, total))
    (hne : hphob ≠ 0)
    (himp : st.2.1 < (qValueS (HphobHphil.of3 hphob hphil total) st.2.2).1)
    (h : windowStep qvartemp jmaxR c sp st i = .ok st') :
    ∃ m, st'.1 = some m ∧
      m.planePoint1 = mi.planePoint1 ∧
      m.planePoint2 = mj.planePoint2 ∧
      m.stats = HphobHphil.of3 hphob hphil total ∧
      m.qmax = some (qValueS (HphobHphil.of3 hphob hphil total) st.2.2).1 ∧
      st'.2.1 = (qValueS (HphobHphil.of3 hphob hphil total) st.2.2).1 ∧
      m.spherePoint = some c ∧
      m.center = some sp ∧
      m.normalVector = some (Vec3.sub sp c) := by
  simp only [windowStep, hgi, hgj, hsums] at h
  rw [if_pos hne, if_pos himp] at h
  cases h
  exact ⟨_, rfl, rfl, rfl, rfl, rfl, rfl, rfl, rfl, rfl⟩

/-- Witness for C9: the amended record description at the good run's
improving window, whose boundary points are (-2, 0, 0) and (0, 0, 0) and
whose score 2/3 becomes the new running maximum. -/
theorem recorded_fields_witness :
    ([Membrane.initial ⟨-2, 0, 0⟩ ⟨-1, 0, 0⟩ ⟨1, 0, 1⟩,
        Membrane.initial ⟨-1, 0, 0⟩ ⟨0, 0, 0⟩ ⟨0, 0, 0⟩,
        Membrane.initial ⟨0, 0, 0⟩ ⟨1, 0, 0⟩ ⟨0, 0, 0⟩] : List Membrane).get? 0 =
      some (Membrane.initial ⟨-2, 0, 0⟩ ⟨-1, 0, 0⟩ ⟨1, 0, 1⟩) ∧
    (1 : ℝ) / 2 ≠ 0 ∧
    ((none, 0, ⟨1, 0, 1⟩) : SearchState).2.1 <
      (qValueS (HphobHphil.of3 (1 / 2) 0 1) ⟨1, 0, 1⟩).1 ∧
    ∃ m, ((some goodMembrane, 2 / 3, ⟨1, 1, 1⟩) : SearchState).1 = some m ∧
      m.planePoint1 = (Membrane.initial ⟨-2, 0, 0⟩ ⟨-1, 0, 0⟩ ⟨1, 0, 1⟩).planePoint1 ∧
      m.planePoint2 = (Membrane.initial ⟨-1, 0, 0⟩ ⟨0, 0, 0⟩ ⟨0, 0, 0⟩).planePoint2 ∧
      m.stats = HphobHphil.of3 (1 / 2) 0 1 ∧
      m.qmax = some (qValueS (HphobHphil.of3 (1 / 2) 0 1) ⟨1, 0, 1⟩).1 ∧
      ((some goodMembrane, 2 / 3, ⟨1, 1, 1⟩) : SearchState).2.1 =
        (qValueS (HphobHphil.of3 (1 / 2) 0 1) ⟨1, 0, 1⟩).1 ∧
      m.spherePoint = some ⟨0, 0, 0⟩ ∧
      m.center = some ⟨-2, 0, 0⟩ ∧
      m.normalVector = some (Vec3.sub ⟨-2, 0, 0⟩ ⟨0, 0, 0⟩) :=
  ⟨rfl, by norm_num, by rw [good_qValueS]; norm_num,
    recorded_fields
      [Membrane.initial ⟨-2, 0, 0⟩ ⟨-1, 0, 0⟩ ⟨1, 0, 1⟩,
        Membrane.initial ⟨-1, 0, 0⟩ ⟨0, 0, 0⟩ ⟨0, 0, 0⟩,
        Membrane.initial ⟨0, 0, 0⟩ ⟨1, 0, 0⟩ ⟨0, 0, 0⟩]
      (goodParams.minThickness / goodParams.stepSize - 1 + ((0 : ℕ) : ℝ))
      ⟨0, 0, 0⟩ ⟨-2, 0, 0⟩ (none, 0, ⟨1, 0, 1⟩) (some goodMembrane, 2 / 3, ⟨1, 1, 1⟩) 0
      (Membrane.initial ⟨-2, 0, 0⟩ ⟨-1, 0, 0⟩ ⟨1, 0, 1⟩)
      (Membrane.initial ⟨-1, 0, 0⟩ ⟨0, 0, 0⟩ ⟨0, 0, 0⟩) (1 / 2) 0 1
      rfl good_getAtReal1 good_ws0 (by norm_num) (by rw [good_qValueS]; norm_num)
      good_winstep0⟩

/-- Witness for C8: the amended frame property applied to an empty axis list
and the statistics record (1, 1, 2). -/
theorem findMembrane_stats_frame_witness :
    1 ≤ (⟨1, 1, 2⟩ : HphobHphil).hphob ∧ 1 ≤ (⟨1, 1, 2⟩ : HphobHphil).hphil ∧
    ((none, 0, ⟨1, 1, 2⟩) : SearchState).2.2 = (⟨1, 1, 2⟩ : HphobHphil) :=
  ⟨by norm_num, by norm_num,
    findMembrane_stats_frame [] ⟨0, 0, 0⟩ defaultProps ⟨1, 1, 2⟩ [] (by norm_num)
      (by norm_num) (none, 0, ⟨1, 1, 2⟩) (by rw [findMembrane, exceptFold])⟩

/-! ## The degenerate geometry of zero extent, and the calculate error path. -/

/-- A fold whose steps never change the state returns the initial state. -/
theorem exceptFold_const {σ α : Type} (f : σ → α → Except JsErr σ) (l : List α) (s : σ)
    (h : ∀ a ∈ l, f s a = .ok s) : exceptFold f s l = .ok s := by
  induction l with
  | nil => rw [exceptFold]
  | cons a l ih =>
    rw [exceptFold, h a (List.mem_cons_self _ _)]
    exact ih (fun a ha => h a (List.mem_cons_of_mem _ ha))

/-- With extent 0 every sampled sphere point coincides with the centroid. -/
theorem gen_zero_radius (n : ℕ) (c : Vec3) :
    ∀ q ∈ generateSpherePoints n c 0, q = c := by
  intro q hq
  simp only [generateSpherePoints, List.mem_map] at hq
  obtain ⟨i, _, rfl⟩ := hq
  simp [spherePointAt]

/-- The width loop does nothing on an empty slice list. -/
theorem widthStep_empty (p : ANVILProps) (c sp : Vec3) (st : SearchState) (k : ℕ)
    (hstep : 0 < p.stepSize) (hmin : 0 ≤ p.minThickness) :
    widthStep [] p c sp st k = .ok st := by
  simp only [widthStep]
  rw [show ⌈(([] : List Membrane).length : ℝ) - 1 -
      (p.minThickness / p.stepSize - 1 + (k : ℕ))⌉₊ = 0 by
    rw [Nat.ceil_eq_zero]
    have hd : 0 ≤ p.minThickness / p.stepSize := div_nonneg hmin (le_of_lt hstep)
    have hk : (0 : ℝ) ≤ (k : ℕ) := Nat.cast_nonneg k
    simp only [List.length_nil, Nat.cast_zero]
    linarith]
  rw [List.range_zero, exceptFold]

/-- Scanning an axis candidate that coincides with the centroid leaves the
search state unchanged: the diameter is the zero vector, so no slice is
built and no window is evaluated. -/
theorem axisStep_const (c : Vec3) (p : ANVILProps) (res : List Residue) (st : SearchState)
    (hstep : 0 < p.stepSize) (hmin : 0 ≤ p.minThickness) :
    axisStep c p res st c = .ok st := by
  simp only [axisStep]
  have hz : Vec3.scale (Vec3.sub c c) 2 = (⟨0, 0, 0⟩ : Vec3) := by
    simp [Vec3.sub, Vec3.scale]
  have hmag : Vec3.magnitude (⟨0, 0, 0⟩ : Vec3) = 0 := by
    simp [Vec3.magnitude, Vec3.dot, Real.sqrt_zero]
  have hcnt : sliceCount 0 p.stepSize = 0 := by
    rw [sliceCount, Nat.ceil_eq_zero]
    rw [zero_sub, neg_div, div_self (ne_of_gt hstep)]
    norm_num
  rw [hz, hmag, hcnt, List.range_zero, List.map_nil]
  exact exceptFold_const _ _ _ (fun k _ => widthStep_empty p c c st k hstep hmin)

/-- findMembrane over a list of axis candidates that all coincide with the
centroid finds nothing and leaves the statistics unchanged. -/
theorem findMembrane_const (pts : List Vec3) (c : Vec3) (p : ANVILProps)
    (init : HphobHphil) (res : List Residue)
    (hpts : ∀ q ∈ pts, q = c) (hstep : 0 < p.stepSize) (hmin : 0 ≤ p.minThickness) :
    findMembrane pts c p init res = .ok (none, 0, init) := by
  rw [findMembrane]
  refine exceptFold_const _ _ _ (fun sp hsp => ?_)
  rw [hpts sp hsp]
  exact axisStep_const c p res _ hstep hmin

/-- With extent 0 the proximate-axes loop finishes on its first iteration,
returning the whole 30000-point pool. -/
theorem findProximateAxesE_zero (mem : Option Membrane) (n : ℕ) (c : Vec3)
    (hn1 : 1 ≤ n) (hn2 : n ≤ 30000) :
    findProximateAxesE mem n c 0 = .ok (generateSpherePoints 30000 c 0) := by
  have hfilter : proximateFilterAt n c 0 4 = generateSpherePoints 30000 c 0 := by
    rw [proximateFilterAt]
    refine List.filter_eq_self.mpr ?_
    intro q hq
    rw [gen_zero_radius 30000 c q hq, decide_eq_true_eq]
    have : Vec3.squaredDistance c c = 0 := by
      simp [Vec3.squaredDistance]
    rw [this]
    norm_num
  have hlen : (generateSpherePoints 30000 c 0).length = 30000 := by
    simp [generateSpherePoints]
  rw [findProximateAxesE, findProximateAxesAux,
    if_neg (by simp only [List.length_nil]; omega), hfilter]
  rw [show ⌈15 * |(0 : ℝ)|⌉₊ = 0 by simp]
  rw [findProximateAxesAux, if_pos (by rw [hlen]; omega)]

theorem extract_buried :
    extractResidues atomsBuried defaultProps.afilter = [⟨⟨0, 0, 0⟩, false, "ALA"⟩] := by
  rw [extractResidues, atomsBuried]
  simp only [List.filterMap_cons, List.filterMap_nil]
  rw [if_pos (by norm_num)]
  rw [if_neg (by norm_num [defaultProps])]

theorem extract_empty :
    extractResidues atomsEmpty defaultProps.afilter = [] := by
  rw [extractResidues, atomsEmpty]
  simp only [List.filterMap_cons, List.filterMap_nil]
  rw [if_neg (by norm_num)]

/-- Shared spine of the two degenerate calculate runs: whenever extraction
produces residues whose positions are all at the centroid-to-be and that are
all buried, both passes find nothing and the selection line dereferences an
undefined membrane. -/
theorem calculate_degenerate (atoms : List Atom) (res : List Residue)
    (hres : extractResidues atoms defaultProps.afilter = res)
    (hcent : centroidOf (res.map Residue.pos) = ⟨0, 0, 0⟩)
    (hrad : radiusSqOf ⟨0, 0, 0⟩ (res.map Residue.pos) = 0) :
    calculate atoms defaultProps = .error JsErr.typeError := by
  rw [calculate, hres, hcent, hrad]
  rw [show (1.2 : ℝ) * Real.sqrt 0 = 0 by rw [Real.sqrt_zero]; ring]
  rw [findMembrane_const (generateSpherePoints defaultProps.numberOfSpherePoints ⟨0, 0, 0⟩ 0)
    ⟨0, 0, 0⟩ defaultProps (filtered res none) res
    (gen_zero_radius _ _) (by norm_num [defaultProps]) (by norm_num [defaultProps])]
  rw [show defaultProps.numberOfSpherePoints = 350 from rfl]
  dsimp only
  rw [findProximateAxesE_zero none 350 ⟨0, 0, 0⟩ (by omega) (by omega)]
  dsimp only
  rw [findMembrane_const (generateSpherePoints 30000 ⟨0, 0, 0⟩ 0)
    ⟨0, 0, 0⟩ defaultProps (filtered res none) res
    (gen_zero_radius _ _) (by norm_num [defaultProps]) (by norm_num [defaultProps])]
  rfl

/-- C7: on a structure containing zero qualifying residues (no protein
alpha-carbon atoms), compute does not fail with an InvalidInputError - no
such error exists in the source; the search finds nothing, findMembrane
returns undefined through its non-null assertion, and the selection line
initialMembrane.qmax! crashes with a TypeError. -/
theorem compute_empty_typeError :
    compute atomsEmpty defaultProps = .error JsErr.typeError := by
  rw [compute]
  refine calculate_degenerate atomsEmpty [] extract_empty ?_ ?_
  · simp [centroidOf]
  · simp [radiusSqOf]

/-- C1: on a structure whose only qualifying residue is buried, no window
ever produces a positive score; the search completes with qmax still 0,
findMembrane returns undefined through its non-null assertion instead of
failing with a NoMembraneFoundError (which does not exist in the source),
and the caller crashes with a TypeError when dereferencing qmax. -/
theorem compute_no_positive_score_typeError :
    compute atomsBuried defaultProps = .error JsErr.typeError := by
  rw [compute]
  refine calculate_degenerate atomsBuried [⟨⟨0, 0, 0⟩, false, "ALA"⟩] extract_buried ?_ ?_
  · simp only [centroidOf, List.map_cons, List.map_nil]
    norm_num
  · simp only [radiusSqOf, List.map_cons, List.map_nil, List.foldl_cons, List.foldl_nil]
    simp [Vec3.squaredDistance]

end ANVIL
